import Mathlib

/-!
# netplugin: the opflex endpoint driver and the etcd resource allocator

A shallow embedding of `drivers/opflexDriver.go` and
`resources/etcdresourceallocator.go`.  The store and the OS are external: every
call made to them is appended to a trace, and an environment decides, from the
calls made so far, whether the call fails.
-/

namespace Netplugin

/-! ## Errors -/

/-- Go `error` values.  `keyNotFound` is the store's NotFound answer for an absent
key; `core` is a `core.Error` (or any other failure) with its message. -/
inductive Error where
  | keyNotFound (key : String)
  | core (Desc : String)
  deriving DecidableEq, Repr

deriving instance DecidableEq for Except

set_option linter.dupNamespace false in
/-- The message of an error (`err.Error()`). -/
def Error.Error : Error → String
  | .keyNotFound _ => "Key not found"
  | .core d => d

/-- Whether `sub` occurs in the list as a contiguous block. -/
def hasInfix (sub : List Char) : List Char → Bool
  | [] => sub.isEmpty
  | c :: cs => sub.isPrefixOf (c :: cs) || hasInfix sub cs

/-- Go `strings.Contains`. -/
def stringsContains (s substr : String) : Bool :=
  hasInfix substr.data s.data

/-- Modelled from the spec: `core.ErrIfKeyExists` (package `core` is not under
src/).  A nil error and the store's NotFound are mapped to nil, "a `NotFound` is an
expected no-op condition"; every other error is returned unchanged. -/
def ErrIfKeyExists : Option Error → Option Error
  | none => none
  | some (.keyNotFound _) => none
  | some e => some e

/-! ## Records kept in the store -/

/-- Desired endpoint configuration (`mastercfg.CfgEndpointState`), with the fields
the driver reads. -/
structure CfgEndpointState where
  ID : String
  NetID : String
  EndpointGroupID : Int
  AttachUUID : String
  ContName : String
  ServiceName : String
  IPAddress : String
  MacAddress : String
  IntfName : String
  HomingHost : String
  VtepIP : String
  deriving DecidableEq, Repr

/-- Network configuration (`mastercfg.CfgNetworkState`). -/
structure CfgNetworkState where
  ID : String
  PktTagType : String
  PktTag : Int
  deriving DecidableEq, Repr

/-- Endpoint group configuration (`mastercfg.EndpointGroupState`). -/
structure EndpointGroupState where
  ID : String
  PktTagType : String
  PktTag : Int
  deriving DecidableEq, Repr

/-- Operational state of one endpoint (`OvsOperEndpointState`). -/
structure OvsOperEndpointState where
  ID : String
  NetID : String
  AttachUUID : String
  ContName : String
  ServiceName : String
  IPAddress : String
  MacAddress : String
  IntfName : String
  PortName : String
  HomingHost : String
  VtepIP : String
  deriving DecidableEq, Repr

/-- Operational state of the driver: the counter used to allocate port names.
Go's `int` is taken as an unbounded integer. -/
structure OpflexDriverOperState where
  ID : String
  CurrPortNum : Int
  deriving DecidableEq, Repr

/-! ## The environment: store and OS calls -/

/-- A call made to the store or to the OS. -/
inductive Event where
  | readCfgEp (id : String)
  | readCfgNw (id : String)
  | readEpGroup (id : String)
  | readOperEp (id : String)
  | writeOperEp (s : OvsOperEndpointState)
  | clearOperEp (id : String)
  | writeDriverOper (s : OpflexDriverOperState)
  | LinkByName (name : String)
  | createVethPair (name1 name2 : String)
  | setLinkUp (name : String)
  | setLinkMtu (name : String) (mtu : Int)
  | LinkSetHardwareAddr (name mac : String)
  | deleteVethPair (name1 name2 : String)
  deriving DecidableEq, Repr

/-- The OS networking primitives. -/
def Event.isOS : Event → Bool
  | .LinkByName _ => true
  | .createVethPair _ _ => true
  | .setLinkUp _ => true
  | .setLinkMtu _ _ => true
  | .LinkSetHardwareAddr _ _ => true
  | .deleteVethPair _ _ => true
  | _ => false

/-- The store calls that change a record: writes and clears. -/
def Event.isStoreUpdate : Event → Bool
  | .writeOperEp _ => true
  | .clearOperEp _ => true
  | .writeDriverOper _ => true
  | _ => false

/-- The OS port-removal primitive. -/
def Event.isPortRemoval : Event → Bool
  | .deleteVethPair _ _ => true
  | _ => false

/-- The environment: given the calls made so far and the next call, the error the
call returns, if any.  For a store read `none` means the store answered (the record
or NotFound); for `LinkByName` `none` means the link exists. -/
abbrev Env := List Event → Event → Option Error

/-- The records persisted in the store.  A record is written under the key formed
from its own `ID` (`fmt.Sprintf(ovsOperPath, s.ID)`), so each table is looked up by
`ID`. -/
structure Store where
  cfgEps : List CfgEndpointState
  cfgNws : List CfgNetworkState
  epGroups : List EndpointGroupState
  operEps : List OvsOperEndpointState
  driverOper : List OpflexDriverOperState
  deriving DecidableEq, Repr

/-- The driver's in-memory state `d.oper`, the store, and the calls made so far. -/
structure World where
  oper : OpflexDriverOperState
  store : Store
  trace : List Event
  deriving DecidableEq, Repr

/-- Make one call: ask the environment for its outcome and record it. -/
def call (env : Env) (w : World) (ev : Event) : Option Error × World :=
  (env w.trace ev, { w with trace := w.trace ++ [ev] })

/-- Constants and helpers of package `drivers` that are declared outside
`opflexDriver.go`. -/
structure Params where
  useVethPair : Bool
  maxIntfRetry : Nat
  vxlanEndpointMtu : Int
  getExtPortName : String → String
  Matches : OvsOperEndpointState → CfgEndpointState → Bool
  ParseMAC : String → Option Error

/-! ## Store accessors -/

/-- Modelled from the spec: `CfgEndpointState.Read` (package `mastercfg` is not
under src/): "`Read(key, out)` — fails `NotFound` if absent", and any store call
"may fail with a `Transient` error". -/
def CfgEndpointState.Read (env : Env) (w : World) (id : String) :
    Except Error CfgEndpointState × World :=
  match call env w (.readCfgEp id) with
  | (some err, w1) => (.error err, w1)
  | (none, w1) =>
    match w1.store.cfgEps.find? (fun r => decide (r.ID = id)) with
    | none => (.error (.keyNotFound id), w1)
    | some r => (.ok r, w1)

/-- Modelled from the spec: `CfgNetworkState.Read` (package `mastercfg` is not
under src/), as `CfgEndpointState.Read`. -/
def CfgNetworkState.Read (env : Env) (w : World) (id : String) :
    Except Error CfgNetworkState × World :=
  match call env w (.readCfgNw id) with
  | (some err, w1) => (.error err, w1)
  | (none, w1) =>
    match w1.store.cfgNws.find? (fun r => decide (r.ID = id)) with
    | none => (.error (.keyNotFound id), w1)
    | some r => (.ok r, w1)

/-- Modelled from the spec: `EndpointGroupState.Read` (package `mastercfg` is not
under src/), as `CfgEndpointState.Read`. -/
def EndpointGroupState.Read (env : Env) (w : World) (id : String) :
    Except Error EndpointGroupState × World :=
  match call env w (.readEpGroup id) with
  | (some err, w1) => (.error err, w1)
  | (none, w1) =>
    match w1.store.epGroups.find? (fun r => decide (r.ID = id)) with
    | none => (.error (.keyNotFound id), w1)
    | some r => (.ok r, w1)

/-- Modelled from the spec: `OvsOperEndpointState.Read` (its state file is not
under src/), after `OpflexDriverOperState.Read`: read the record kept for `id`. -/
def OvsOperEndpointState.Read (env : Env) (w : World) (id : String) :
    Except Error OvsOperEndpointState × World :=
  match call env w (.readOperEp id) with
  | (some err, w1) => (.error err, w1)
  | (none, w1) =>
    match w1.store.operEps.find? (fun r => decide (r.ID = id)) with
    | none => (.error (.keyNotFound id), w1)
    | some r => (.ok r, w1)

/-- Modelled from the spec: `OvsOperEndpointState.Write` (its state file is not
under src/), after `OpflexDriverOperState.Write`: upsert under the key of `s.ID`. -/
def OvsOperEndpointState.Write (env : Env) (w : World) (s : OvsOperEndpointState) :
    Option Error × World :=
  match call env w (.writeOperEp s) with
  | (some err, w1) => (some err, w1)
  | (none, w1) =>
    (none, { w1 with store := { w1.store with
      operEps := s :: w1.store.operEps.filter (fun r => decide (r.ID ≠ s.ID)) } })

/-- Modelled from the spec: `OvsOperEndpointState.Clear` (its state file is not
under src/), after `OpflexDriverOperState.Clear`: delete the key of `s.ID`;
"MUST be idempotent (no error when key already absent)". -/
def OvsOperEndpointState.Clear (env : Env) (w : World) (s : OvsOperEndpointState) :
    Option Error × World :=
  match call env w (.clearOperEp s.ID) with
  | (some err, w1) => (some err, w1)
  | (none, w1) =>
    (none, { w1 with store := { w1.store with
      operEps := w1.store.operEps.filter (fun r => decide (r.ID ≠ s.ID)) } })

/-- Method `OpflexDriverOperState.Write`: write the driver state `d.oper` under the key
of its `ID`. -/
def OpflexDriverOperState.Write (env : Env) (w : World) : Option Error × World :=
  match call env w (.writeDriverOper w.oper) with
  | (some err, w1) => (some err, w1)
  | (none, w1) =>
    (none, { w1 with store := { w1.store with
      driverOper := w1.oper :: w1.store.driverOper.filter (fun r => decide (r.ID ≠ w1.oper.ID)) } })

/-! ## netutils -/

/-- Function `netutils.SetInterfaceMac`: look the link up, parse the MAC address, set it. -/
def SetInterfaceMac (P : Params) (env : Env) (w : World) (name macaddr : String) :
    Option Error × World :=
  match call env w (.LinkByName name) with
  | (some err, w1) => (some err, w1)
  | (none, w1) =>
    match P.ParseMAC macaddr with
    | some err => (some err, w1)
    | none => call env w1 (.LinkSetHardwareAddr name macaddr)

/-! ## The opflex driver -/

/-- The candidate interface name `fmt.Sprintf("vport%d", n)`. -/
def vport (n : Int) : String := "vport" ++ toString n

/-- The loop of `getIntfName`, with `n` iterations left: pick the next port number,
probe the name, and accept it when the probe fails with "not found", saving the
driver state first. -/
def getIntfNameLoop (env : Env) : Nat → World → Except Error String × World
  | 0, w => (.error (.core "Could not get intf name. Max retry exceeded"), w)
  | n + 1, w =>
    let w1 : World := { w with oper := { w.oper with CurrPortNum := w.oper.CurrPortNum + 1 } }
    let intfName := vport w1.oper.CurrPortNum
    match call env w1 (.LinkByName intfName) with
    | (some err, w2) =>
      if stringsContains err.Error "not found" then
        match OpflexDriverOperState.Write env w2 with
        | (some werr, w3) => (.error werr, w3)
        | (none, w3) => (.ok intfName, w3)
      else getIntfNameLoop env n w2
    | (none, w2) => getIntfNameLoop env n w2

/-- Method `OpflexDriver.getIntfName`. -/
def getIntfName (P : Params) (env : Env) (w : World) : Except Error String × World :=
  getIntfNameLoop env P.maxIntfRetry w

/-- The veth branch of `CreatePort`: create the pair and set the OVS side up. -/
def createPortLinks (P : Params) (env : Env) (w : World) (intfName : String) :
    Option Error × World :=
  if P.useVethPair then
    match call env w (.createVethPair intfName (P.getExtPortName intfName)) with
    | (some err, w1) => (some err, w1)
    | (none, w1) => call env w1 (.setLinkUp (P.getExtPortName intfName))
  else (none, w)

/-- Method `OpflexDriver.CreatePort`.  The packet tags only reach log lines; the deferred
closure registered after the MTU step only logs; the fixed sleep is not recorded. -/
def CreatePort (P : Params) (env : Env) (w : World) (intfName : String)
    (cfgEp : CfgEndpointState) (_pktTag _nwPktTag : Int) : Option Error × World :=
  match createPortLinks P env w intfName with
  | (some err, w1) => (some err, w1)
  | (none, w1) =>
    match call env w1 (.setLinkMtu intfName P.vxlanEndpointMtu) with
    | (some err, w2) => (some err, w2)
    | (none, w2) =>
      match SetInterfaceMac P env w2 intfName cfgEp.MacAddress with
      | (some err, w3) => (some err, w3)
      | (none, w3) => (none, w3)

/-- Method `OpflexDriver.DeletePort`. -/
def DeletePort (P : Params) (env : Env) (w : World) (epOper : OvsOperEndpointState) :
    Option Error × World :=
  if epOper.VtepIP ≠ "" then (none, w)
  else
    let ovsPortName :=
      if !P.useVethPair then epOper.PortName else P.getExtPortName epOper.PortName
    let err : Option Error := none
    if P.useVethPair then
      match call env w (.deleteVethPair ovsPortName epOper.PortName) with
      | (some verr, w1) => (some verr, w1)
      | (none, w1) => (err, w1)
    else (err, w)

/-- Method `OpflexDriver.DeleteEndpoint`.  Once the operational record is read, the
deferred `epOper.Clear()` runs on every return, its result discarded. -/
def DeleteEndpoint (P : Params) (env : Env) (w : World) (id : String) :
    Option Error × World :=
  match OvsOperEndpointState.Read env w id with
  | (.error err, w1) => (some err, w1)
  | (.ok epOper, w1) =>
    match CfgNetworkState.Read env w1 epOper.NetID with
    | (.error err, w2) => (some err, (OvsOperEndpointState.Clear env w2 epOper).2)
    | (.ok _, w2) =>
      match DeletePort P env w2 epOper with
      | (_, w3) => (none, (OvsOperEndpointState.Clear env w3 epOper).2)

/-- The operational record `CreateEndpoint` saves for `id` once the port is built. -/
def newOperEp (id intfName : String) (cfgEp : CfgEndpointState) : OvsOperEndpointState :=
  { ID := id
    NetID := cfgEp.NetID
    AttachUUID := cfgEp.AttachUUID
    ContName := cfgEp.ContName
    ServiceName := cfgEp.ServiceName
    IPAddress := cfgEp.IPAddress
    MacAddress := cfgEp.MacAddress
    IntfName := cfgEp.IntfName
    PortName := intfName
    HomingHost := cfgEp.HomingHost
    VtepIP := cfgEp.VtepIP }

/-- The part of `CreateEndpoint` from `getIntfName` on: allocate the name, create
the port, save the operational record.  The closure deferred after the write tests
an `err` that is nil there, so it never clears. -/
def createEndpointBuild (P : Params) (env : Env) (w : World) (id : String)
    (cfgEp : CfgEndpointState) (cfgNw : CfgNetworkState) (cfgEpGroup : EndpointGroupState) :
    Option Error × World :=
  match getIntfName P env w with
  | (.error err, w1) => (some err, w1)
  | (.ok intfName, w1) =>
    match CreatePort P env w1 intfName cfgEp cfgEpGroup.PktTag cfgNw.PktTag with
    | (some err, w2) => (some err, w2)
    | (none, w2) =>
      match OvsOperEndpointState.Write env w2 (newOperEp id intfName cfgEp) with
      | (some err, w3) => (some err, w3)
      | (none, w3) => (none, w3)

/-- The part of `CreateEndpoint` from the read of the operational record on. -/
def createEndpointReconcile (P : Params) (env : Env) (w : World) (id : String)
    (cfgEp : CfgEndpointState) (cfgNw : CfgNetworkState) (cfgEpGroup : EndpointGroupState) :
    Option Error × World :=
  match OvsOperEndpointState.Read env w id with
  | (.error err, w1) =>
    match ErrIfKeyExists (some err) with
    | some _ => (some err, w1)
    | none => createEndpointBuild P env w1 id cfgEp cfgNw cfgEpGroup
  | (.ok operEp, w1) =>
    if P.Matches operEp cfgEp then (none, w1)
    else
      match DeleteEndpoint P env w1 operEp.ID with
      | (_, w2) => createEndpointBuild P env w2 id cfgEp cfgNw cfgEpGroup

/-- The network-based packet tag `CreateEndpoint` falls back to when the endpoint
group is not found. -/
def networkTag (cfgNw : CfgNetworkState) : EndpointGroupState :=
  { ID := "", PktTagType := cfgNw.PktTagType, PktTag := cfgNw.PktTag }

/-- Method `OpflexDriver.CreateEndpoint`. -/
def CreateEndpoint (P : Params) (env : Env) (w : World) (id : String) :
    Option Error × World :=
  match CfgEndpointState.Read env w id with
  | (.error err, w1) => (some err, w1)
  | (.ok cfgEp, w1) =>
    match CfgNetworkState.Read env w1 cfgEp.NetID with
    | (.error err, w2) => (some err, w2)
    | (.ok cfgNw, w2) =>
      match EndpointGroupState.Read env w2 (toString cfgEp.EndpointGroupID) with
      | (.ok cfgEpGroup, w3) => createEndpointReconcile P env w3 id cfgEp cfgNw cfgEpGroup
      | (.error err, w3) =>
        match ErrIfKeyExists (some err) with
        | none =>
          createEndpointReconcile P env w3 id cfgEp cfgNw (networkTag cfgNw)
        | some _ => (some err, w3)

/-! ## The log lines that print a packet tag -/

/-- A log call of the driver that prints a packet tag, with the values it prints. -/
inductive LogLine where
  -- line 227, `log.Debugf("pktTag: %v ", cfgEpGroup.PktTag)`
  | pktTag (tag : Int)
  -- line 176, in the closure deferred by `CreatePort`: name, type, id, tag
  | createPortFailed (ovsPortName ovsIntfType id : String) (pktTag : Int)
  -- line 192, at the end of `CreatePort`: name, type, id, tag
  | createPort (ovsPortName ovsIntfType id : String) (pktTag : Int)
  -- line 193, at the end of `CreatePort`: network tag, ip, endpoint group id (the
  -- parsed MAC address it also prints is left out)
  | createPortTags (nwPktTag : Int) (ip : String) (epgid : Int)
  deriving DecidableEq, Repr

/-- Method `OpflexDriver.CreatePort` with the log lines that print a packet tag: the
closure deferred after the MTU step logs when the MAC step fails, and the two final
lines are logged on success. -/
def CreatePortLog (P : Params) (env : Env) (w : World) (intfName : String)
    (cfgEp : CfgEndpointState) (pktTag nwPktTag : Int) :
    (Option Error × World) × List LogLine :=
  let ovsPortName := if P.useVethPair then P.getExtPortName intfName else intfName
  let ovsIntfType := if P.useVethPair then "" else "internal"
  match createPortLinks P env w intfName with
  | (some err, w1) => ((some err, w1), [])
  | (none, w1) =>
    match call env w1 (.setLinkMtu intfName P.vxlanEndpointMtu) with
    | (some err, w2) => ((some err, w2), [])
    | (none, w2) =>
      match SetInterfaceMac P env w2 intfName cfgEp.MacAddress with
      | (some err, w3) =>
        ((some err, w3), [.createPortFailed ovsPortName ovsIntfType cfgEp.ID pktTag])
      | (none, w3) =>
        ((none, w3),
          [.createPort ovsPortName ovsIntfType cfgEp.ID pktTag,
           .createPortTags nwPktTag cfgEp.IPAddress cfgEp.EndpointGroupID])

/-- The part of `CreateEndpoint` from `getIntfName` on, with the log lines that
print a packet tag. -/
def createEndpointBuildLog (P : Params) (env : Env) (w : World) (id : String)
    (cfgEp : CfgEndpointState) (cfgNw : CfgNetworkState) (cfgEpGroup : EndpointGroupState) :
    (Option Error × World) × List LogLine :=
  match getIntfName P env w with
  | (.error err, w1) => ((some err, w1), [])
  | (.ok intfName, w1) =>
    match CreatePortLog P env w1 intfName cfgEp cfgEpGroup.PktTag cfgNw.PktTag with
    | ((some err, w2), logs) => ((some err, w2), logs)
    | ((none, w2), logs) =>
      match OvsOperEndpointState.Write env w2 (newOperEp id intfName cfgEp) with
      | (some err, w3) => ((some err, w3), logs)
      | (none, w3) => ((none, w3), logs)

/-- The part of `CreateEndpoint` from the read of the operational record on, with
the log lines that print a packet tag. -/
def createEndpointReconcileLog (P : Params) (env : Env) (w : World) (id : String)
    (cfgEp : CfgEndpointState) (cfgNw : CfgNetworkState) (cfgEpGroup : EndpointGroupState) :
    (Option Error × World) × List LogLine :=
  match OvsOperEndpointState.Read env w id with
  | (.error err, w1) =>
    match ErrIfKeyExists (some err) with
    | some _ => ((some err, w1), [])
    | none => createEndpointBuildLog P env w1 id cfgEp cfgNw cfgEpGroup
  | (.ok operEp, w1) =>
    if P.Matches operEp cfgEp then ((none, w1), [])
    else
      match DeleteEndpoint P env w1 operEp.ID with
      | (_, w2) => createEndpointBuildLog P env w2 id cfgEp cfgNw cfgEpGroup

/-- Lines 223-234 of `CreateEndpoint`: the endpoint group state after its read, with
the packet tag and tag type of the network written into it when the read fails with
NotFound; any other error of the read is returned. -/
def resolveEpGroup (env : Env) (w : World) (cfgEp : CfgEndpointState)
    (cfgNw : CfgNetworkState) : Except Error EndpointGroupState × World × List LogLine :=
  match EndpointGroupState.Read env w (toString cfgEp.EndpointGroupID) with
  | (.ok cfgEpGroup, w3) => (.ok cfgEpGroup, w3, [.pktTag cfgEpGroup.PktTag])
  | (.error err, w3) =>
    match ErrIfKeyExists (some err) with
    | none => (.ok (networkTag cfgNw), w3, [])
    | some _ => (.error err, w3, [])

/-- Method `OpflexDriver.CreateEndpoint` with the log lines that print a packet
tag, in the order they are logged. -/
def CreateEndpointLog (P : Params) (env : Env) (w : World) (id : String) :
    (Option Error × World) × List LogLine :=
  match CfgEndpointState.Read env w id with
  | (.error err, w1) => ((some err, w1), [])
  | (.ok cfgEp, w1) =>
    match CfgNetworkState.Read env w1 cfgEp.NetID with
    | (.error err, w2) => ((some err, w2), [])
    | (.ok cfgNw, w2) =>
      match resolveEpGroup env w2 cfgEp cfgNw with
      | (.error err, w3, logs) => ((some err, w3), logs)
      | (.ok cfgEpGroup, w3, logs) =>
        ((createEndpointReconcileLog P env w3 id cfgEp cfgNw cfgEpGroup).1,
          logs ++ (createEndpointReconcileLog P env w3 id cfgEp cfgNw cfgEpGroup).2)

/-! ## The etcd resource allocator -/

/-- The resource types held by `ResourceRegistry`. -/
inductive RsrcType where
  | AutoVlanCfgResource
  | AutoVxlanCfgResource
  | AutoSubnetCfgResource
  deriving DecidableEq, Repr

/-- A resource instance (`core.Resource`): its type, its id, and the rest of its
persisted content, which is empty in a freshly constructed instance. -/
structure Resource where
  rsrcType : RsrcType
  Id : String
  content : String
  deriving DecidableEq, Repr

/-- The result of `Allocate`: Go's pair of a value and an error. -/
abbrev AllocResult := Option String × Option Error

/-- A call made by the allocator to a resource instance. -/
inductive RsrcEvent where
  | ReadAll (t : RsrcType)
  | Init (r : Resource) (rsrcCfg : String)
  | Deinit (r : Resource)
  | Allocate (r : Resource)
  | Deallocate (r : Resource) (value : String)
  deriving DecidableEq, Repr

/-- The persisted resource instances and the calls made so far. -/
structure RsrcWorld where
  rsrcs : List Resource
  trace : List RsrcEvent
  deriving DecidableEq, Repr

/-- What the allocator takes from outside `etcdresourceallocator.go`: the
descriptor constants, Go's `%q` formatting, and the methods `Init`, `Allocate` and
`Deallocate` of the resource types, each with its effect on the persisted
instances. -/
structure RsrcParams where
  AUTO_VLAN_RSRC : String
  AUTO_VXLAN_RSRC : String
  AUTO_SUBNET_RSRC : String
  quote : String → String
  Init : Resource → String → List Resource → Option Error × List Resource
  Allocate : Resource → List Resource → AllocResult × List Resource
  Deallocate : Resource → String → List Resource → Option Error × List Resource

/-- The outcome the store gives to a `ReadAll`, from the calls made so far. -/
abbrev RsrcEnv := List RsrcEvent → RsrcType → Option Error

/-- The map `ResourceRegistry`, looked up by descriptor. -/
def ResourceRegistry (K : RsrcParams) (desc : String) : Option RsrcType :=
  if desc = K.AUTO_VLAN_RSRC then some .AutoVlanCfgResource
  else if desc = K.AUTO_VXLAN_RSRC then some .AutoVxlanCfgResource
  else if desc = K.AUTO_SUBNET_RSRC then some .AutoSubnetCfgResource
  else none

/-- Modelled from the spec: `ReadAll` of a resource type (the resource types are not
under src/): "`ReadAll(prefix, out)` — returns every record whose key matches the
prefix", and any store call "may fail". -/
def Resource.ReadAll (env : RsrcEnv) (w : RsrcWorld) (t : RsrcType) :
    Except Error (List Resource) × RsrcWorld :=
  match env w.trace t with
  | some err => (.error err, { w with trace := w.trace ++ [.ReadAll t] })
  | none =>
    (.ok (w.rsrcs.filter fun r => decide (r.rsrcType = t)),
      { w with trace := w.trace ++ [.ReadAll t] })

/-- Modelled from the spec: `Deinit` of a resource type (the resource types are not
under src/): a resource is "destroyed by `UndefineResource` (`Deinit`, then record
removed)"; the allocator makes no other call, so the removal of the persisted record
is the effect of `Deinit`. -/
def Resource.Deinit (w : RsrcWorld) (r : Resource) : RsrcWorld :=
  { rsrcs := w.rsrcs.filter fun x => !(decide (x.rsrcType = r.rsrcType) && decide (x.Id = r.Id))
    trace := w.trace ++ [.Deinit r] }

/-- Method `EtcdResourceAllocator.findResource`: the instance and `alreadyExists`, or the
error. -/
def findResource (K : RsrcParams) (env : RsrcEnv) (w : RsrcWorld) (id desc : String) :
    Except Error (Resource × Bool) × RsrcWorld :=
  match ResourceRegistry K desc with
  | none => (.error (.core ("No resource found for description: " ++ K.quote desc)), w)
  | some rsrcType =>
    let rsrc : Resource := { rsrcType := rsrcType, Id := id, content := "" }
    match Resource.ReadAll env w rsrcType with
    | (.error err, w1) => (.error err, w1)
    | (.ok rsrcs, w1) =>
      match rsrcs.find? (fun r => decide (r.Id = id)) with
      | some r => (.ok (r, true), w1)
      | none => (.ok (rsrc, false), w1)

/-- Method `EtcdResourceAllocator.DefineResource`. -/
def DefineResource (K : RsrcParams) (env : RsrcEnv) (w : RsrcWorld) (id desc rsrcCfg : String) :
    Option Error × RsrcWorld :=
  match findResource K env w id desc with
  | (.error err, w1) => (some err, w1)
  | (.ok (rsrc, alreadyExists), w1) =>
    if alreadyExists then
      (some (.core ("Resource with id: " ++ K.quote id ++ " already exists")), w1)
    else
      match K.Init rsrc rsrcCfg w1.rsrcs with
      | (some err, rs) => (some err, { rsrcs := rs, trace := w1.trace ++ [.Init rsrc rsrcCfg] })
      | (none, rs) => (none, { rsrcs := rs, trace := w1.trace ++ [.Init rsrc rsrcCfg] })

/-- The error of the last three operations when the resource is not defined. -/
def noResourceFound (K : RsrcParams) (id desc : String) : Error :=
  .core ("No resource found for description: " ++ K.quote desc ++ " and id: " ++ K.quote id)

/-- Method `EtcdResourceAllocator.UndefineResource`. -/
def UndefineResource (K : RsrcParams) (env : RsrcEnv) (w : RsrcWorld) (id desc : String) :
    Option Error × RsrcWorld :=
  match findResource K env w id desc with
  | (.error err, w1) => (some err, w1)
  | (.ok (rsrc, alreadyExists), w1) =>
    if !alreadyExists then (some (noResourceFound K id desc), w1)
    else (none, Resource.Deinit w1 rsrc)

/-- Method `EtcdResourceAllocator.AllocateResourceVal`. -/
def AllocateResourceVal (K : RsrcParams) (env : RsrcEnv) (w : RsrcWorld) (id desc : String) :
    AllocResult × RsrcWorld :=
  match findResource K env w id desc with
  | (.error err, w1) => ((none, some err), w1)
  | (.ok (rsrc, alreadyExists), w1) =>
    if !alreadyExists then ((none, some (noResourceFound K id desc)), w1)
    else
      ((K.Allocate rsrc w1.rsrcs).1,
        { rsrcs := (K.Allocate rsrc w1.rsrcs).2, trace := w1.trace ++ [.Allocate rsrc] })

/-- Method `EtcdResourceAllocator.DeallocateResourceVal`. -/
def DeallocateResourceVal (K : RsrcParams) (env : RsrcEnv) (w : RsrcWorld)
    (id desc value : String) : Option Error × RsrcWorld :=
  match findResource K env w id desc with
  | (.error err, w1) => (some err, w1)
  | (.ok (rsrc, alreadyExists), w1) =>
    if !alreadyExists then (some (noResourceFound K id desc), w1)
    else
      ((K.Deallocate rsrc value w1.rsrcs).1,
        { rsrcs := (K.Deallocate rsrc value w1.rsrcs).2,
          trace := w1.trace ++ [.Deallocate rsrc value] })

/-! ## Specification vocabulary -/

/-- The calls `CreatePort` can make: link lookup, veth creation, link up, MTU, MAC. -/
def Event.isPortBuild : Event → Bool
  | .LinkByName _ => true
  | .createVethPair _ _ => true
  | .setLinkUp _ => true
  | .setLinkMtu _ _ => true
  | .LinkSetHardwareAddr _ _ => true
  | _ => false

/-- The store reads. -/
def Event.isRead : Event → Bool
  | .readCfgEp _ => true
  | .readCfgNw _ => true
  | .readEpGroup _ => true
  | .readOperEp _ => true
  | _ => false

/-- World `w2` is `w1` after further calls, all of kind `p`, with the store and the
driver state untouched. -/
def Appends (p : Event → Bool) (w1 w2 : World) : Prop :=
  ∃ evs : List Event, w2 = { w1 with trace := w1.trace ++ evs } ∧ ∀ ev ∈ evs, p ev = true

/-- The run of `CreateEndpoint P env w id` gets to the allocation of the interface
name in world `w0`, with configuration `cfgEp`, network `cfgNw` and tag source `grp`:
the three configuration reads went through (the group read, or NotFound and the
network tag), and either no operational record was found, or a mismatching one was
found and `DeleteEndpoint` was run on it. -/
def ReachesBuild (P : Params) (env : Env) (w : World) (id : String) (cfgEp : CfgEndpointState)
    (cfgNw : CfgNetworkState) (grp : EndpointGroupState) (w0 : World) : Prop :=
  ∃ w1 w2 w3 : World,
    CfgEndpointState.Read env w id = (.ok cfgEp, w1) ∧
    CfgNetworkState.Read env w1 cfgEp.NetID = (.ok cfgNw, w2) ∧
    (EndpointGroupState.Read env w2 (toString cfgEp.EndpointGroupID) = (.ok grp, w3) ∨
      ∃ k, EndpointGroupState.Read env w2 (toString cfgEp.EndpointGroupID)
          = (.error (.keyNotFound k), w3) ∧ grp = networkTag cfgNw) ∧
    ((∃ k, OvsOperEndpointState.Read env w3 id = (.error (.keyNotFound k), w0)) ∨
      ∃ operEp w4, OvsOperEndpointState.Read env w3 id = (.ok operEp, w4) ∧
        P.Matches operEp cfgEp = false ∧ (DeleteEndpoint P env w4 operEp.ID).2 = w0)

/-- The call that took world `wm` to `w2` is a port-building call that failed with
`e`. -/
def FailedCall (env : Env) (wm w2 : World) (e : Error) : Prop :=
  ∃ ev : Event, ev.isPortBuild = true ∧ w2 = { wm with trace := wm.trace ++ [ev] } ∧
    env wm.trace ev = some e

/-- The port number of candidate `i` (counted from 0) after counter value `c`. -/
def cand (c : Int) (i : Nat) : Int := c + 1 + i

/-- The link probes of the first `k` candidates after counter value `c`, in order:
`vport(c+1)`, ..., `vport(c+k)`. -/
def probes (c : Int) (k : Nat) : List Event :=
  (List.range k).map fun i => .LinkByName (vport (cand c i))

/-- Whether the probe of candidate `i` after counter value `c`, made after trace `tr`
and the probes of the candidates before it, fails with a "not found" error. -/
def probeFree (env : Env) (tr : List Event) (c : Int) (i : Nat) : Bool :=
  match env (tr ++ probes c i) (.LinkByName (vport (cand c i))) with
  | some err => stringsContains err.Error "not found"
  | none => false

/-- The world in which `getIntfName` saves the driver state after finding candidate
`i` free: the counter at that candidate, the probes up to it made. -/
def acceptWorld (w : World) (i : Nat) : World :=
  { oper := { w.oper with CurrPortNum := cand w.oper.CurrPortNum i }
    store := w.store
    trace := w.trace ++ probes w.oper.CurrPortNum (i + 1) }

/-- From world `w3` the reconcile stage of `CreateEndpoint` for `id` goes on to the
allocation of the interface name in world `w0`: no operational record was found, or
a mismatching one was found and `DeleteEndpoint` was run on it. -/
def ReconcileReachesBuild (P : Params) (env : Env) (w3 : World) (id : String)
    (cfgEp : CfgEndpointState) (w0 : World) : Prop :=
  (∃ k, OvsOperEndpointState.Read env w3 id = (.error (.keyNotFound k), w0)) ∨
    ∃ operEp w4, OvsOperEndpointState.Read env w3 id = (.ok operEp, w4) ∧
      P.Matches operEp cfgEp = false ∧ (DeleteEndpoint P env w4 operEp.ID).2 = w0

/-! ## Sample inputs -/

/-- Modelled from the spec: `OvsOperEndpointState.Matches` (its state file is not
under src/): "its fields match the desired config field-for-field". -/
def OvsOperEndpointState.Matches (s : OvsOperEndpointState) (c : CfgEndpointState) : Bool :=
  decide (s.NetID = c.NetID) && decide (s.AttachUUID = c.AttachUUID) &&
  decide (s.ContName = c.ContName) && decide (s.ServiceName = c.ServiceName) &&
  decide (s.IPAddress = c.IPAddress) && decide (s.MacAddress = c.MacAddress) &&
  decide (s.IntfName = c.IntfName) && decide (s.HomingHost = c.HomingHost) &&
  decide (s.VtepIP = c.VtepIP)

/-- Sample constants: veth mode, ten name attempts, MTU 1450. -/
def sampleParams : Params :=
  { useVethPair := true
    maxIntfRetry := 10
    vxlanEndpointMtu := 1450
    getExtPortName := fun n => n ++ "-ovs"
    Matches := OvsOperEndpointState.Matches
    ParseMAC := fun _ => none }

/-- Sample desired endpoint `ep1` on network `net1`. -/
def sampleCfgEp : CfgEndpointState :=
  { ID := "ep1", NetID := "net1", EndpointGroupID := 0, AttachUUID := "u1",
    ContName := "c1", ServiceName := "", IPAddress := "10.0.0.2",
    MacAddress := "02:02:0a:00:00:02", IntfName := "", HomingHost := "h1", VtepIP := "" }

/-- Sample network `net1`. -/
def sampleCfgNw : CfgNetworkState := { ID := "net1", PktTagType := "vlan", PktTag := 100 }

/-- Sample operational record of `ep1`, plumbed locally on port `vport1`, with
another IP address than `sampleCfgEp`. -/
def sampleOperEp : OvsOperEndpointState :=
  { ID := "ep1", NetID := "net1", AttachUUID := "u1", ContName := "c1", ServiceName := "",
    IPAddress := "10.0.0.9", MacAddress := "02:02:0a:00:00:02", IntfName := "",
    PortName := "vport1", HomingHost := "h1", VtepIP := "" }

/-- Sample operational record of a remote endpoint `ep1` (VTEP set). -/
def sampleRemoteOperEp : OvsOperEndpointState := { sampleOperEp with VtepIP := "192.168.2.11" }

/-- Sample store: `ep1` configured and realised on network `net1`. -/
def sampleStore : Store :=
  { cfgEps := [sampleCfgEp], cfgNws := [sampleCfgNw], epGroups := [],
    operEps := [sampleOperEp], driverOper := [{ ID := "h1", CurrPortNum := 1 }] }

/-- Sample world: driver counter at 1, nothing called yet. -/
def sampleWorld : World :=
  { oper := { ID := "h1", CurrPortNum := 1 }, store := sampleStore, trace := [] }

/-- Whether a veth pair with an end called `n` was created earlier in the trace. -/
def linkCreated (tr : List Event) (n : String) : Bool :=
  tr.any fun ev =>
    match ev with
    | .createVethPair a b => decide (a = n) || decide (b = n)
    | _ => false

/-- Sample environment: every call succeeds, and a link exists exactly when a veth
pair with that name was created earlier. -/
def sampleEnv : Env := fun tr ev =>
  match ev with
  | .LinkByName n => if linkCreated tr n then none else some (.core "Link not found")
  | _ => none

/-- The environment `base` with the calls selected by `p` failing with `e`. -/
def failOn (p : Event → Bool) (e : Error) (base : Env) : Env := fun tr ev =>
  if p ev then some e else base tr ev

/-- The sample environment with every veth-pair removal failing. -/
def envTeardownFails : Env :=
  failOn Event.isPortRemoval (.core "operation not permitted") sampleEnv

/-- The sample world without the record of network `net1`. -/
def sampleWorldNoNet : World :=
  { sampleWorld with store := { sampleStore with cfgNws := [] } }

/-- The sample world with `ep1` recorded as a remote endpoint. -/
def sampleWorldRemote : World :=
  { sampleWorld with store := { sampleStore with operEps := [sampleRemoteOperEp] } }

/-- The sample world with no operational record. -/
def sampleWorldFresh : World :=
  { sampleWorld with store := { sampleStore with operEps := [] } }

/-- The sample world with the operational record of `ep1` matching its config. -/
def sampleWorldMatching : World :=
  { sampleWorld with
    store := { sampleStore with operEps := [newOperEp "ep1" "vport1" sampleCfgEp] } }

/-- The sample environment with every link-up failing. -/
def envLinkUpFails : Env :=
  failOn (fun ev => match ev with | .setLinkUp _ => true | _ => false)
    (.core "no such device") sampleEnv

/-- The sample world without operational record, after the four reads that open
`CreateEndpoint`. -/
def sampleWorldFreshRead : World :=
  { sampleWorldFresh with
    trace := [.readCfgEp "ep1", .readCfgNw "net1", .readEpGroup "0", .readOperEp "ep1"] }

/-- The sample world, after the four reads that open `CreateEndpoint`. -/
def sampleWorldRead : World :=
  { sampleWorld with
    trace := [.readCfgEp "ep1", .readCfgNw "net1", .readEpGroup "0", .readOperEp "ep1"] }

/-- The sample environment with every write of the driver state failing. -/
def envCounterWriteFails : Env :=
  failOn (fun ev => match ev with | .writeDriverOper _ => true | _ => false)
    (.core "etcd cluster is unavailable") sampleEnv

/-- An environment in which every link exists and every store call succeeds. -/
def envAllLinksExist : Env := fun _ _ => none

/-- Sample resource methods: `Init` persists the instance with its configuration
as content, `Allocate` hands out the content, `Deallocate` accepts any value. -/
def sampleRsrcParams : RsrcParams :=
  { AUTO_VLAN_RSRC := "auto-vlan"
    AUTO_VXLAN_RSRC := "auto-vxlan"
    AUTO_SUBNET_RSRC := "auto-subnet"
    quote := fun x => "[" ++ x ++ "]"
    Init := fun r rsrcCfg rs => (none, { r with content := rsrcCfg } :: rs)
    Allocate := fun r rs => ((some r.content, none), rs)
    Deallocate := fun _ _ rs => (none, rs) }

/-- A store that answers every `ReadAll`. -/
def sampleRsrcEnv : RsrcEnv := fun _ _ => none

/-- Sample stored VLAN pool `vlan1`. -/
def sampleVlan : Resource :=
  { rsrcType := .AutoVlanCfgResource, Id := "vlan1", content := "100-104" }

/-- No resource defined. -/
def sampleRsrcEmpty : RsrcWorld := { rsrcs := [], trace := [] }

/-- The VLAN pool `vlan1` defined. -/
def sampleRsrcDefined : RsrcWorld := { rsrcs := [sampleVlan], trace := [] }

/-- Sample endpoint group `0` with its own VXLAN tag. -/
def sampleGroup : EndpointGroupState := { ID := "0", PktTagType := "vxlan", PktTag := 5001 }

/-- The sample world without operational record and with the endpoint group `0`. -/
def sampleWorldGroup : World :=
  { sampleWorld with store := { sampleStore with operEps := [], epGroups := [sampleGroup] } }

/-- The sample environment with every read of an endpoint group failing with an
error other than NotFound. -/
def envGroupReadFails : Env :=
  failOn (fun ev => match ev with | .readEpGroup _ => true | _ => false)
    (.core "etcd cluster is unavailable") sampleEnv

/-! ## Properties -/

/-! ### Store reads: one call recorded, nothing else changed -/

theorem cfgEpRead_world (env : Env) (w : World) (id : String) :
    (CfgEndpointState.Read env w id).2 = { w with trace := w.trace ++ [.readCfgEp id] } := by
  unfold CfgEndpointState.Read call
  cases env w.trace (.readCfgEp id) <;> simp only
  split <;> rfl

theorem cfgNwRead_world (env : Env) (w : World) (id : String) :
    (CfgNetworkState.Read env w id).2 = { w with trace := w.trace ++ [.readCfgNw id] } := by
  unfold CfgNetworkState.Read call
  cases env w.trace (.readCfgNw id) <;> simp only
  split <;> rfl

theorem epGroupRead_world (env : Env) (w : World) (id : String) :
    (EndpointGroupState.Read env w id).2 = { w with trace := w.trace ++ [.readEpGroup id] } := by
  unfold EndpointGroupState.Read call
  cases env w.trace (.readEpGroup id) <;> simp only
  split <;> rfl

theorem operEpRead_world (env : Env) (w : World) (id : String) :
    (OvsOperEndpointState.Read env w id).2 = { w with trace := w.trace ++ [.readOperEp id] } := by
  unfold OvsOperEndpointState.Read call
  cases env w.trace (.readOperEp id) <;> simp only
  split <;> rfl

/-- A record read for `id` carries that `ID`. -/
theorem operEpRead_ok_id {env : Env} {w w1 : World} {id : String} {ep : OvsOperEndpointState}
    (h : OvsOperEndpointState.Read env w id = (.ok ep, w1)) : ep.ID = id := by
  unfold OvsOperEndpointState.Read call at h
  cases hc : env w.trace (.readOperEp id) <;> simp only [hc] at h
  · split at h
    · simp at h
    · rename_i r hr
      simp only [Prod.mk.injEq, Except.ok.injEq] at h
      have := List.find?_some hr
      rw [← h.1]
      simpa using this
  · simp at h

/-- What a read of the operational record returns when the store answers. -/
theorem operEpRead_absent {env : Env} {w : World} {id : String}
    (hans : env w.trace (.readOperEp id) = none)
    (habs : w.store.operEps.find? (fun r => decide (r.ID = id)) = none) :
    OvsOperEndpointState.Read env w id =
      (.error (.keyNotFound id), { w with trace := w.trace ++ [.readOperEp id] }) := by
  unfold OvsOperEndpointState.Read call
  simp only [hans, habs]

/-- The world after `Clear`: the call is recorded, and when it succeeds no record
with that `ID` is left. -/
theorem operEpClear_trace (env : Env) (w : World) (s : OvsOperEndpointState) :
    (OvsOperEndpointState.Clear env w s).2.trace = w.trace ++ [.clearOperEp s.ID] := by
  unfold OvsOperEndpointState.Clear call
  cases env w.trace (.clearOperEp s.ID) <;> rfl

theorem operEpClear_store {env : Env} {w : World} {s : OvsOperEndpointState}
    (h : env w.trace (.clearOperEp s.ID) = none) :
    (OvsOperEndpointState.Clear env w s).2.store.operEps.find? (fun r => decide (r.ID = s.ID))
      = none := by
  unfold OvsOperEndpointState.Clear call
  simp only [h]
  rw [List.find?_eq_none]
  intro x hx
  simp only [List.mem_filter] at hx
  simpa using hx.2

/-! ### Calls only append to the trace -/

theorem appends_refl (p : Event → Bool) (w : World) : Appends p w w :=
  ⟨[], by simp, by simp⟩

theorem appends_trans {p : Event → Bool} {w1 w2 w3 : World}
    (h12 : Appends p w1 w2) (h23 : Appends p w2 w3) : Appends p w1 w3 := by
  obtain ⟨e1, rfl, he1⟩ := h12
  obtain ⟨e2, rfl, he2⟩ := h23
  refine ⟨e1 ++ e2, by simp, ?_⟩
  intro ev hev
  rcases List.mem_append.mp hev with h | h
  · exact he1 ev h
  · exact he2 ev h

theorem appends_mono {p q : Event → Bool} {w1 w2 : World}
    (hpq : ∀ ev, p ev = true → q ev = true) (h : Appends p w1 w2) : Appends q w1 w2 := by
  obtain ⟨evs, hw, hev⟩ := h
  exact ⟨evs, hw, fun ev hm => hpq ev (hev ev hm)⟩

theorem call_world (env : Env) (w : World) (ev : Event) :
    (call env w ev).2 = { w with trace := w.trace ++ [ev] } := rfl

theorem call_appends {p : Event → Bool} (env : Env) (w : World) {ev : Event}
    (hp : p ev = true) : Appends p w (call env w ev).2 :=
  ⟨[ev], rfl, by simpa using hp⟩

theorem cfgEpRead_appends (env : Env) (w : World) (id : String) :
    Appends Event.isRead w (CfgEndpointState.Read env w id).2 :=
  ⟨[.readCfgEp id], cfgEpRead_world env w id, by simp [Event.isRead]⟩

theorem cfgNwRead_appends (env : Env) (w : World) (id : String) :
    Appends Event.isRead w (CfgNetworkState.Read env w id).2 :=
  ⟨[.readCfgNw id], cfgNwRead_world env w id, by simp [Event.isRead]⟩

theorem epGroupRead_appends (env : Env) (w : World) (id : String) :
    Appends Event.isRead w (EndpointGroupState.Read env w id).2 :=
  ⟨[.readEpGroup id], epGroupRead_world env w id, by simp [Event.isRead]⟩

theorem operEpRead_appends (env : Env) (w : World) (id : String) :
    Appends Event.isRead w (OvsOperEndpointState.Read env w id).2 :=
  ⟨[.readOperEp id], operEpRead_world env w id, by simp [Event.isRead]⟩

theorem setInterfaceMac_appends (P : Params) (env : Env) (w : World) (name mac : String) :
    Appends Event.isPortBuild w (SetInterfaceMac P env w name mac).2 := by
  have h1 : Appends Event.isPortBuild w (call env w (.LinkByName name)).2 :=
    call_appends env w rfl
  unfold SetInterfaceMac
  rcases hc : call env w (.LinkByName name) with ⟨r, w1⟩
  rw [hc] at h1
  cases r with
  | some err => exact h1
  | none =>
    simp only
    cases P.ParseMAC mac with
    | some err => exact h1
    | none => exact appends_trans h1 (call_appends env w1 rfl)

theorem createPortLinks_appends (P : Params) (env : Env) (w : World) (name : String) :
    Appends Event.isPortBuild w (createPortLinks P env w name).2 := by
  unfold createPortLinks
  cases P.useVethPair with
  | false => exact appends_refl _ w
  | true =>
    simp only [ite_true]
    have h1 : Appends Event.isPortBuild w
        (call env w (.createVethPair name (P.getExtPortName name))).2 := call_appends env w rfl
    rcases hc : call env w (.createVethPair name (P.getExtPortName name)) with ⟨r, w1⟩
    rw [hc] at h1
    cases r with
    | some err => exact h1
    | none => exact appends_trans h1 (call_appends env w1 rfl)

/-- The tail of `CreatePort` after the veth branch only appends port-building calls. -/
theorem createPort_appends (P : Params) (env : Env) (w : World) (name : String)
    (cfgEp : CfgEndpointState) (t1 t2 : Int) :
    Appends Event.isPortBuild w (CreatePort P env w name cfgEp t1 t2).2 := by
  have h1 := createPortLinks_appends P env w name
  unfold CreatePort
  rcases hl : createPortLinks P env w name with ⟨r, w1⟩
  rw [hl] at h1
  cases r with
  | some err => exact h1
  | none =>
    simp only
    have h2 : Appends Event.isPortBuild w1
        (call env w1 (.setLinkMtu name P.vxlanEndpointMtu)).2 := call_appends env w1 rfl
    rcases hm : call env w1 (.setLinkMtu name P.vxlanEndpointMtu) with ⟨r2, w2⟩
    rw [hm] at h2
    cases r2 with
    | some err => exact appends_trans h1 h2
    | none =>
      simp only
      have h3 := setInterfaceMac_appends P env w2 name cfgEp.MacAddress
      rcases hs : SetInterfaceMac P env w2 name cfgEp.MacAddress with ⟨r3, w3⟩
      rw [hs] at h3
      cases r3 <;> exact appends_trans h1 (appends_trans h2 h3)

/-- In veth mode the first call of `CreatePort` creates the pair `name`, OVS name. -/
theorem createPort_veth_first (P : Params) (env : Env) (w : World) (name : String)
    (cfgEp : CfgEndpointState) (t1 t2 : Int) (hveth : P.useVethPair = true) :
    ∃ evs : List Event,
      (CreatePort P env w name cfgEp t1 t2).2.trace =
        w.trace ++ .createVethPair name (P.getExtPortName name) :: evs ∧
      ∀ ev ∈ evs, ev.isPortBuild = true := by
  have hmtu : ∀ (w1 : World),
      Appends Event.isPortBuild w1
        (match call env w1 (.setLinkMtu name P.vxlanEndpointMtu) with
          | (some err, w2) => (some err, w2)
          | (none, w2) =>
            match SetInterfaceMac P env w2 name cfgEp.MacAddress with
            | (some err, w3) => (some err, w3)
            | (none, w3) => ((none : Option Error), w3)).2 := by
    intro w1
    have h2 : Appends Event.isPortBuild w1
        (call env w1 (.setLinkMtu name P.vxlanEndpointMtu)).2 := call_appends env w1 rfl
    rcases hm : call env w1 (.setLinkMtu name P.vxlanEndpointMtu) with ⟨r2, w2⟩
    rw [hm] at h2
    cases r2 with
    | some err => exact h2
    | none =>
      simp only
      have h3 := setInterfaceMac_appends P env w2 name cfgEp.MacAddress
      rcases hs : SetInterfaceMac P env w2 name cfgEp.MacAddress with ⟨r3, w3⟩
      rw [hs] at h3
      cases r3 <;> exact appends_trans h2 h3
  unfold CreatePort createPortLinks
  simp only [hveth, ite_true]
  cases hc : env w.trace (.createVethPair name (P.getExtPortName name)) with
  | some err =>
    refine ⟨[], ?_, by simp⟩
    simp [call, hc]
  | none =>
    simp only [call, hc]
    cases hu : env (w.trace ++ [.createVethPair name (P.getExtPortName name)])
        (.setLinkUp (P.getExtPortName name)) with
    | some err =>
      refine ⟨[.setLinkUp (P.getExtPortName name)], ?_, by simp [Event.isPortBuild]⟩
      simp
    | none =>
      simp only
      obtain ⟨evs, hevs, hp⟩ := hmtu
        { w with trace := w.trace ++ [.createVethPair name (P.getExtPortName name)]
                   ++ [.setLinkUp (P.getExtPortName name)] }
      refine ⟨.setLinkUp (P.getExtPortName name) :: evs, ?_, ?_⟩
      · simp only [call] at hevs
        rw [hevs]
        simp
      · intro ev hev
        rcases List.mem_cons.mp hev with h | h
        · rw [h]; rfl
        · exact hp ev h

/-! ### DeletePort and DeleteEndpoint -/

theorem deletePort_remote {P : Params} {env : Env} {w : World} {ep : OvsOperEndpointState}
    (hv : ep.VtepIP ≠ "") : DeletePort P env w ep = (none, w) := by
  unfold DeletePort
  simp [hv]

theorem deletePort_veth_trace {P : Params} {env : Env} {w : World} {ep : OvsOperEndpointState}
    (hv : ep.VtepIP = "") (hveth : P.useVethPair = true) :
    (DeletePort P env w ep).2.trace =
      w.trace ++ [.deleteVethPair (P.getExtPortName ep.PortName) ep.PortName] := by
  unfold DeletePort call
  simp only [hv, hveth, ne_eq, not_true_eq_false, ite_false, ite_true, Bool.not_true]
  cases h : env w.trace (.deleteVethPair (P.getExtPortName ep.PortName) ep.PortName) <;>
    simp [h]

/-- C1, as the code behaves: when the operational record and the network record are
read and `DeletePort` fails with `e`, `DeleteEndpoint` drops `e` (it is only logged),
clears the operational record and returns nil. -/
theorem DeleteEndpoint_drops_teardown_error (P : Params) (env : Env) (w : World) (id : String)
    (ep : OvsOperEndpointState) (w1 : World) (nw : CfgNetworkState) (w2 : World)
    (e : Error) (w3 : World)
    (hr : OvsOperEndpointState.Read env w id = (.ok ep, w1))
    (hn : CfgNetworkState.Read env w1 ep.NetID = (.ok nw, w2))
    (hd : DeletePort P env w2 ep = (some e, w3)) :
    DeleteEndpoint P env w id = (none, (OvsOperEndpointState.Clear env w3 ep).2) ∧
    (DeleteEndpoint P env w id).2.trace = w3.trace ++ [.clearOperEp id] := by
  have hid := operEpRead_ok_id hr
  have h : DeleteEndpoint P env w id = (none, (OvsOperEndpointState.Clear env w3 ep).2) := by
    unfold DeleteEndpoint
    simp only [hr, hn, hd]
  refine ⟨h, ?_⟩
  rw [h, operEpClear_trace, hid]

theorem DeleteEndpoint_drops_teardown_error_witness :
    (DeleteEndpoint sampleParams envTeardownFails sampleWorld "ep1").1 = none :=
  congrArg Prod.fst
    (DeleteEndpoint_drops_teardown_error sampleParams envTeardownFails sampleWorld "ep1"
      sampleOperEp (OvsOperEndpointState.Read envTeardownFails sampleWorld "ep1").2
      sampleCfgNw
      (CfgNetworkState.Read envTeardownFails
        (OvsOperEndpointState.Read envTeardownFails sampleWorld "ep1").2 "net1").2
      (.core "operation not permitted")
      (DeletePort sampleParams envTeardownFails
        (CfgNetworkState.Read envTeardownFails
          (OvsOperEndpointState.Read envTeardownFails sampleWorld "ep1").2 "net1").2
        sampleOperEp).2
      (by decide) (by decide) (by decide)).1

/-- C1 fails as stated: with both records read and the veth removal failing with
"operation not permitted", `DeleteEndpoint` returns nil, not that error. -/
theorem DeleteEndpoint_teardown_error_not_returned :
    (OvsOperEndpointState.Read envTeardownFails sampleWorld "ep1").1 = .ok sampleOperEp ∧
    (CfgNetworkState.Read envTeardownFails
      (OvsOperEndpointState.Read envTeardownFails sampleWorld "ep1").2 "net1").1
        = .ok sampleCfgNw ∧
    (DeletePort sampleParams envTeardownFails
      (CfgNetworkState.Read envTeardownFails
        (OvsOperEndpointState.Read envTeardownFails sampleWorld "ep1").2 "net1").2
      sampleOperEp).1 = some (.core "operation not permitted") ∧
    (DeleteEndpoint sampleParams envTeardownFails sampleWorld "ep1").1
      ≠ some (.core "operation not permitted") := by
  decide

/-- C4: once the operational record of `id` is read, `DeleteEndpoint` ends, on every
path (network read failed, teardown failed or succeeded), with the `Clear` of that
record as its last call; when that call succeeds, the store holds no operational
record for `id`. -/
theorem DeleteEndpoint_clears_record (P : Params) (env : Env) (w : World) (id : String)
    (ep : OvsOperEndpointState) (w1 : World)
    (hr : OvsOperEndpointState.Read env w id = (.ok ep, w1)) :
    ∃ w2 : World,
      (DeleteEndpoint P env w id).2 = (OvsOperEndpointState.Clear env w2 ep).2 ∧
      (DeleteEndpoint P env w id).2.trace = w2.trace ++ [.clearOperEp id] ∧
      (env w2.trace (.clearOperEp id) = none →
        (DeleteEndpoint P env w id).2.store.operEps.find? (fun r => decide (r.ID = id))
          = none) := by
  have hid := operEpRead_ok_id hr
  have key : ∃ w2 : World,
      (DeleteEndpoint P env w id).2 = (OvsOperEndpointState.Clear env w2 ep).2 := by
    unfold DeleteEndpoint
    simp only [hr]
    rcases hn : CfgNetworkState.Read env w1 ep.NetID with ⟨r, w2⟩
    cases r with
    | error err => exact ⟨w2, rfl⟩
    | ok nw =>
      exact ⟨(DeletePort P env w2 ep).2, rfl⟩
  obtain ⟨w2, h2⟩ := key
  refine ⟨w2, h2, ?_, ?_⟩
  · rw [h2, operEpClear_trace, hid]
  · intro hc
    rw [h2]
    rw [← hid] at hc ⊢
    exact operEpClear_store hc

theorem DeleteEndpoint_clears_record_witness :
    ∃ w2 : World,
      (DeleteEndpoint sampleParams envTeardownFails sampleWorld "ep1").2
        = (OvsOperEndpointState.Clear envTeardownFails w2 sampleOperEp).2 ∧
      (DeleteEndpoint sampleParams envTeardownFails sampleWorld "ep1").2.trace
        = w2.trace ++ [.clearOperEp "ep1"] ∧
      (envTeardownFails w2.trace (.clearOperEp "ep1") = none →
        (DeleteEndpoint sampleParams envTeardownFails sampleWorld "ep1").2.store.operEps.find?
          (fun r => decide (r.ID = "ep1")) = none) :=
  DeleteEndpoint_clears_record sampleParams envTeardownFails sampleWorld "ep1" sampleOperEp
    (OvsOperEndpointState.Read envTeardownFails sampleWorld "ep1").2 (by decide)

/-- C5, as the code behaves: for a record read with an empty `VtepIP`, in veth mode,
`DeleteEndpoint` deletes the veth pair of the record's `PortName` and its OVS-facing
name (the two names `CreatePort` gives to veth creation) when the network record is
read; when that read fails, it returns the read's error, having cleared the record
and attempted no teardown. -/
theorem DeleteEndpoint_teardown_after_network_read (P : Params) (env : Env) (w : World)
    (id : String) (ep : OvsOperEndpointState) (w1 : World)
    (hr : OvsOperEndpointState.Read env w id = (.ok ep, w1))
    (hv : ep.VtepIP = "") (hveth : P.useVethPair = true) :
    (∀ nw w2, CfgNetworkState.Read env w1 ep.NetID = (.ok nw, w2) →
      (DeleteEndpoint P env w id).2.trace =
        w.trace ++ [.readOperEp id, .readCfgNw ep.NetID,
          .deleteVethPair (P.getExtPortName ep.PortName) ep.PortName, .clearOperEp id]) ∧
    (∀ err w2, CfgNetworkState.Read env w1 ep.NetID = (.error err, w2) →
      (DeleteEndpoint P env w id).1 = some err ∧
      (DeleteEndpoint P env w id).2.trace =
        w.trace ++ [.readOperEp id, .readCfgNw ep.NetID, .clearOperEp id]) ∧
    (∀ (w0 : World) (cfgEp : CfgEndpointState) (t1 t2 : Int), ∃ rest,
      (CreatePort P env w0 ep.PortName cfgEp t1 t2).2.trace =
        w0.trace ++ .createVethPair ep.PortName (P.getExtPortName ep.PortName) :: rest) := by
  have hid := operEpRead_ok_id hr
  have hw1 : w1 = { w with trace := w.trace ++ [.readOperEp id] } := by
    have := operEpRead_world env w id
    rw [hr] at this
    exact this
  refine ⟨?_, ?_, ?_⟩
  · intro nw w2 hn
    have hw2 : w2 = { w1 with trace := w1.trace ++ [.readCfgNw ep.NetID] } := by
      have := cfgNwRead_world env w1 ep.NetID
      rw [hn] at this
      exact this
    unfold DeleteEndpoint
    simp only [hr, hn]
    rw [operEpClear_trace, deletePort_veth_trace hv hveth, hw2, hw1, hid]
    simp
  · intro err w2 hn
    have hw2 : w2 = { w1 with trace := w1.trace ++ [.readCfgNw ep.NetID] } := by
      have := cfgNwRead_world env w1 ep.NetID
      rw [hn] at this
      exact this
    unfold DeleteEndpoint
    simp only [hr, hn, true_and]
    rw [operEpClear_trace, hw2, hw1, hid]
    simp
  · intro w0 cfgEp t1 t2
    obtain ⟨evs, hevs, -⟩ := createPort_veth_first P env w0 ep.PortName cfgEp t1 t2 hveth
    exact ⟨evs, hevs⟩

theorem DeleteEndpoint_teardown_after_network_read_witness :
    (DeleteEndpoint sampleParams sampleEnv sampleWorld "ep1").2.trace =
      [.readOperEp "ep1", .readCfgNw "net1", .deleteVethPair "vport1-ovs" "vport1",
        .clearOperEp "ep1"] :=
  (DeleteEndpoint_teardown_after_network_read sampleParams sampleEnv sampleWorld "ep1"
    sampleOperEp (OvsOperEndpointState.Read sampleEnv sampleWorld "ep1").2
    (by decide) (by decide) (by decide)).1 sampleCfgNw
    (CfgNetworkState.Read sampleEnv
      (OvsOperEndpointState.Read sampleEnv sampleWorld "ep1").2 "net1").2 (by decide)

/-- C5 fails as stated: the record of `ep1` is read, has an empty `VtepIP`, the mode
is veth, but the network record is absent; `DeleteEndpoint` returns the NotFound of
the network read and clears the record without any veth removal. -/
theorem DeleteEndpoint_returns_before_teardown :
    (OvsOperEndpointState.Read sampleEnv sampleWorldNoNet "ep1").1 = .ok sampleOperEp ∧
    sampleOperEp.VtepIP = "" ∧ sampleParams.useVethPair = true ∧
    (DeleteEndpoint sampleParams sampleEnv sampleWorldNoNet "ep1").1
      = some (.keyNotFound "net1") ∧
    (DeleteEndpoint sampleParams sampleEnv sampleWorldNoNet "ep1").2.trace
      = [.readOperEp "ep1", .readCfgNw "net1", .clearOperEp "ep1"] ∧
    (DeleteEndpoint sampleParams sampleEnv sampleWorldNoNet "ep1").2.trace.all
      (fun ev => !ev.isPortRemoval) = true := by
  decide

/-- C7: for a record with a non-empty `VtepIP`, `DeleteEndpoint` makes the network
read and the clear of the record and no OS call, and the record is gone when the
clear succeeds; when the read of the operational record fails (NotFound for an id
without a record), `DeleteEndpoint` returns that error having made the read only:
nothing is cleared, no OS call is made, the store is unchanged. -/
theorem DeleteEndpoint_remote_or_unknown (P : Params) (env : Env) (w : World) (id : String) :
    (∀ ep w1, OvsOperEndpointState.Read env w id = (.ok ep, w1) → ep.VtepIP ≠ "" →
      (DeleteEndpoint P env w id).2.trace =
        w.trace ++ [.readOperEp id, .readCfgNw ep.NetID, .clearOperEp id] ∧
      (∀ ev ∈ [Event.readOperEp id, .readCfgNw ep.NetID, .clearOperEp id],
        ev.isOS = false) ∧
      (env (w.trace ++ [.readOperEp id, .readCfgNw ep.NetID]) (.clearOperEp id) = none →
        (DeleteEndpoint P env w id).2.store.operEps.find? (fun r => decide (r.ID = id))
          = none)) ∧
    (∀ err w1, OvsOperEndpointState.Read env w id = (.error err, w1) →
      DeleteEndpoint P env w id = (some err, { w with trace := w.trace ++ [.readOperEp id] })) ∧
    (env w.trace (.readOperEp id) = none →
      w.store.operEps.find? (fun r => decide (r.ID = id)) = none →
      DeleteEndpoint P env w id =
        (some (.keyNotFound id), { w with trace := w.trace ++ [.readOperEp id] })) := by
  have herr : ∀ err w1, OvsOperEndpointState.Read env w id = (.error err, w1) →
      DeleteEndpoint P env w id =
        (some err, { w with trace := w.trace ++ [.readOperEp id] }) := by
    intro err w1 hr
    have hw1 : w1 = { w with trace := w.trace ++ [.readOperEp id] } := by
      have := operEpRead_world env w id
      rw [hr] at this
      exact this
    unfold DeleteEndpoint
    simp only [hr, hw1]
  refine ⟨?_, herr, ?_⟩
  · intro ep w1 hr hv
    have hid := operEpRead_ok_id hr
    have hw1 : w1 = { w with trace := w.trace ++ [.readOperEp id] } := by
      have := operEpRead_world env w id
      rw [hr] at this
      exact this
    have hfin : (DeleteEndpoint P env w id).2 =
        (OvsOperEndpointState.Clear env
          { w with trace := w.trace ++ [.readOperEp id, .readCfgNw ep.NetID] } ep).2 := by
      have hw2 := cfgNwRead_world env w1 ep.NetID
      unfold DeleteEndpoint
      simp only [hr]
      rcases hn : CfgNetworkState.Read env w1 ep.NetID with ⟨r, w2⟩
      rw [hn] at hw2
      simp only at hw2
      cases r with
      | error err => simp [hw2, hw1]
      | ok nw => simp [deletePort_remote hv, hw2, hw1]
    refine ⟨?_, by simp [Event.isOS], ?_⟩
    · rw [hfin, operEpClear_trace, hid]
      simp
    · intro hc
      rw [hfin]
      rw [← hid] at hc ⊢
      exact operEpClear_store hc
  · intro hans habs
    exact herr _ _ (operEpRead_absent hans habs)

theorem DeleteEndpoint_remote_or_unknown_witness :
    (DeleteEndpoint sampleParams sampleEnv sampleWorldRemote "ep1").2.trace =
      [.readOperEp "ep1", .readCfgNw "net1", .clearOperEp "ep1"] ∧
    DeleteEndpoint sampleParams sampleEnv sampleWorldFresh "ep1" =
      (some (.keyNotFound "ep1"), { sampleWorldFresh with trace := [.readOperEp "ep1"] }) :=
  ⟨((DeleteEndpoint_remote_or_unknown sampleParams sampleEnv sampleWorldRemote "ep1").1
      sampleRemoteOperEp (OvsOperEndpointState.Read sampleEnv sampleWorldRemote "ep1").2
      (by decide) (by decide)).1,
   (DeleteEndpoint_remote_or_unknown sampleParams sampleEnv sampleWorldFresh "ep1").2.2
      (by decide) (by decide)⟩

/-! ### CreateEndpoint -/

/-- C3: when the configuration, network and group reads go through (the group read
or NotFound) and the stored operational record matches the configuration,
`CreateEndpoint` returns nil having made only the four reads: no OS call, no store
write or clear, the store and the interface-name counter unchanged. -/
theorem CreateEndpoint_matching_noop (P : Params) (env : Env) (w : World) (id : String)
    (cfgEp : CfgEndpointState) (w1 : World) (cfgNw : CfgNetworkState) (w2 : World)
    (rg : Except Error EndpointGroupState) (w3 : World)
    (operEp : OvsOperEndpointState) (w4 : World)
    (h1 : CfgEndpointState.Read env w id = (.ok cfgEp, w1))
    (h2 : CfgNetworkState.Read env w1 cfgEp.NetID = (.ok cfgNw, w2))
    (h3 : EndpointGroupState.Read env w2 (toString cfgEp.EndpointGroupID) = (rg, w3))
    (hg : (∃ g, rg = .ok g) ∨ (∃ k, rg = .error (.keyNotFound k)))
    (h4 : OvsOperEndpointState.Read env w3 id = (.ok operEp, w4))
    (hm : P.Matches operEp cfgEp = true) :
    (CreateEndpoint P env w id).1 = none ∧
    (CreateEndpoint P env w id).2.store = w.store ∧
    (CreateEndpoint P env w id).2.oper = w.oper ∧
    (CreateEndpoint P env w id).2.trace =
      w.trace ++ [.readCfgEp id, .readCfgNw cfgEp.NetID,
        .readEpGroup (toString cfgEp.EndpointGroupID), .readOperEp id] ∧
    (∀ ev ∈ [Event.readCfgEp id, .readCfgNw cfgEp.NetID,
        .readEpGroup (toString cfgEp.EndpointGroupID), .readOperEp id],
      ev.isOS = false ∧ ev.isStoreUpdate = false) := by
  have hw1 : w1 = { w with trace := w.trace ++ [.readCfgEp id] } := by
    have := cfgEpRead_world env w id
    rw [h1] at this
    exact this
  have hw2 : w2 = { w1 with trace := w1.trace ++ [.readCfgNw cfgEp.NetID] } := by
    have := cfgNwRead_world env w1 cfgEp.NetID
    rw [h2] at this
    exact this
  have hw3 : w3 = { w2 with trace :=
      w2.trace ++ [.readEpGroup (toString cfgEp.EndpointGroupID)] } := by
    have := epGroupRead_world env w2 (toString cfgEp.EndpointGroupID)
    rw [h3] at this
    exact this
  have hw4 : w4 = { w3 with trace := w3.trace ++ [.readOperEp id] } := by
    have := operEpRead_world env w3 id
    rw [h4] at this
    exact this
  have hfin : CreateEndpoint P env w id = (none, w4) := by
    unfold CreateEndpoint
    simp only [h1, h2, h3]
    rcases hg with ⟨g, rfl⟩ | ⟨k, rfl⟩
    · simp only [createEndpointReconcile, h4, hm, ite_true]
    · simp only [ErrIfKeyExists, createEndpointReconcile, h4, hm, ite_true]
  rw [hfin, hw4, hw3, hw2, hw1]
  refine ⟨rfl, rfl, rfl, by simp, by simp [Event.isOS, Event.isStoreUpdate]⟩

theorem CreateEndpoint_matching_noop_witness :
    (CreateEndpoint sampleParams sampleEnv sampleWorldMatching "ep1").1 = none ∧
    (CreateEndpoint sampleParams sampleEnv sampleWorldMatching "ep1").2.store
      = sampleWorldMatching.store :=
  have h := CreateEndpoint_matching_noop sampleParams sampleEnv sampleWorldMatching "ep1"
    sampleCfgEp { sampleWorldMatching with trace := [.readCfgEp "ep1"] }
    sampleCfgNw { sampleWorldMatching with trace := [.readCfgEp "ep1", .readCfgNw "net1"] }
    (.error (.keyNotFound "0"))
    { sampleWorldMatching with
      trace := [.readCfgEp "ep1", .readCfgNw "net1", .readEpGroup "0"] }
    (newOperEp "ep1" "vport1" sampleCfgEp)
    { sampleWorldMatching with
      trace := [.readCfgEp "ep1", .readCfgNw "net1", .readEpGroup "0", .readOperEp "ep1"] }
    (by decide) (by decide) (by decide) (Or.inr ⟨"0", rfl⟩) (by decide) (by decide)
  ⟨h.1, h.2.1⟩

/-- A run that reaches the build stage continues as `createEndpointBuild`. -/
theorem createEndpoint_of_reachesBuild {P : Params} {env : Env} {w : World} {id : String}
    {cfgEp : CfgEndpointState} {cfgNw : CfgNetworkState} {grp : EndpointGroupState}
    {w0 : World} (h : ReachesBuild P env w id cfgEp cfgNw grp w0) :
    CreateEndpoint P env w id = createEndpointBuild P env w0 id cfgEp cfgNw grp := by
  obtain ⟨w1, w2, w3, h1, h2, h3, h4⟩ := h
  have hrec : createEndpointReconcile P env w3 id cfgEp cfgNw grp
      = createEndpointBuild P env w0 id cfgEp cfgNw grp := by
    unfold createEndpointReconcile
    rcases h4 with ⟨k, h4⟩ | ⟨operEp, w4, h4, hm, hd⟩
    · simp only [h4, ErrIfKeyExists]
    · simp only [h4, hm, hd, Bool.false_eq_true, ite_false]
  unfold CreateEndpoint
  simp only [h1, h2]
  rcases h3 with h3 | ⟨k, h3, hgrp⟩
  · simp only [h3, hrec]
  · simp only [h3, ErrIfKeyExists]
    rw [hgrp] at hrec
    exact hrec

/-! ### Where an error of CreatePort comes from -/

theorem call_some {env : Env} {w w2 : World} {ev : Event} {e : Error}
    (h : call env w ev = (some e, w2)) (hp : ev.isPortBuild = true) : FailedCall env w w2 e := by
  simp only [call, Prod.mk.injEq] at h
  exact ⟨ev, hp, h.2.symm, h.1⟩

theorem setInterfaceMac_error {P : Params} {env : Env} {w w2 : World} {name mac : String}
    {e : Error} (h : SetInterfaceMac P env w name mac = (some e, w2)) :
    ∃ wm, Appends Event.isPortBuild w wm ∧
      (FailedCall env wm w2 e ∨ (P.ParseMAC mac = some e ∧ w2 = wm)) := by
  unfold SetInterfaceMac at h
  have h1 : Appends Event.isPortBuild w (call env w (.LinkByName name)).2 :=
    call_appends env w rfl
  rcases hc : call env w (.LinkByName name) with ⟨r, w1⟩
  rw [hc] at h h1
  cases r with
  | some err =>
    simp only [Prod.mk.injEq, Option.some.injEq] at h
    refine ⟨w, appends_refl _ w, Or.inl ?_⟩
    rw [h.1, h.2] at hc
    exact call_some hc rfl
  | none =>
    simp only at h
    cases hp : P.ParseMAC mac with
    | some err =>
      simp only [hp, Prod.mk.injEq, Option.some.injEq] at h
      exact ⟨w1, h1, Or.inr ⟨by rw [h.1], h.2.symm⟩⟩
    | none =>
      simp only [hp] at h
      exact ⟨w1, h1, Or.inl (call_some h rfl)⟩

theorem createPortLinks_error {P : Params} {env : Env} {w w2 : World} {name : String}
    {e : Error} (h : createPortLinks P env w name = (some e, w2)) :
    ∃ wm, Appends Event.isPortBuild w wm ∧ FailedCall env wm w2 e := by
  unfold createPortLinks at h
  cases hveth : P.useVethPair with
  | false => simp [hveth] at h
  | true =>
    simp only [hveth, ite_true] at h
    have h1 : Appends Event.isPortBuild w
        (call env w (.createVethPair name (P.getExtPortName name))).2 := call_appends env w rfl
    rcases hc : call env w (.createVethPair name (P.getExtPortName name)) with ⟨r, w1⟩
    rw [hc] at h h1
    cases r with
    | some err =>
      simp only [Prod.mk.injEq, Option.some.injEq] at h
      rw [h.1, h.2] at hc
      exact ⟨w, appends_refl _ w, call_some hc rfl⟩
    | none =>
      simp only at h
      exact ⟨w1, h1, call_some h rfl⟩

/-- An error returned by `CreatePort` is the error of its last call, a port-building
call that failed, or the error of parsing the MAC address. -/
theorem createPort_error {P : Params} {env : Env} {w w2 : World} {name : String}
    {cfgEp : CfgEndpointState} {t1 t2 : Int} {e : Error}
    (h : CreatePort P env w name cfgEp t1 t2 = (some e, w2)) :
    ∃ wm, Appends Event.isPortBuild w wm ∧
      (FailedCall env wm w2 e ∨ (P.ParseMAC cfgEp.MacAddress = some e ∧ w2 = wm)) := by
  unfold CreatePort at h
  have h1 := createPortLinks_appends P env w name
  rcases hl : createPortLinks P env w name with ⟨r, w1⟩
  rw [hl] at h h1
  cases r with
  | some err =>
    simp only [Prod.mk.injEq, Option.some.injEq] at h
    rw [h.1, h.2] at hl
    obtain ⟨wm, ha, hf⟩ := createPortLinks_error hl
    exact ⟨wm, ha, Or.inl hf⟩
  | none =>
    simp only at h
    have h2 : Appends Event.isPortBuild w1
        (call env w1 (.setLinkMtu name P.vxlanEndpointMtu)).2 := call_appends env w1 rfl
    rcases hm : call env w1 (.setLinkMtu name P.vxlanEndpointMtu) with ⟨r2, wb⟩
    rw [hm] at h h2
    cases r2 with
    | some err =>
      simp only [Prod.mk.injEq, Option.some.injEq] at h
      rw [h.1, h.2] at hm
      exact ⟨w1, h1, Or.inl (call_some hm rfl)⟩
    | none =>
      simp only at h
      rcases hs : SetInterfaceMac P env wb name cfgEp.MacAddress with ⟨r3, w3⟩
      rw [hs] at h
      cases r3 with
      | none => simp at h
      | some err =>
        simp only [Prod.mk.injEq, Option.some.injEq] at h
        rw [h.1, h.2] at hs
        obtain ⟨wm, ha, hf⟩ := setInterfaceMac_error hs
        exact ⟨wm, appends_trans h1 (appends_trans h2 ha), hf⟩

theorem isPortBuild_not_update {ev : Event} (h : ev.isPortBuild = true) :
    ev.isPortRemoval = false ∧ ev.isStoreUpdate = false := by
  cases ev <;> simp_all [Event.isPortBuild, Event.isPortRemoval, Event.isStoreUpdate]

/-- C2, as the code behaves: when a run of `CreateEndpoint` has allocated the name and
`CreatePort` fails with `e`, `CreateEndpoint` returns `e`, which is the error of the
step that failed (the last call made, or the MAC parse); between the allocation and
the return only port-building calls are made, so nothing is rolled back: no veth
removal, no store write or clear. -/
theorem CreateEndpoint_port_failure_no_rollback (P : Params) (env : Env) (w : World)
    (id : String) (cfgEp : CfgEndpointState) (cfgNw : CfgNetworkState)
    (grp : EndpointGroupState) (w0 : World) (name : String) (w1 : World) (e : Error)
    (w2 : World)
    (hreach : ReachesBuild P env w id cfgEp cfgNw grp w0)
    (hname : getIntfName P env w0 = (.ok name, w1))
    (hport : CreatePort P env w1 name cfgEp grp.PktTag cfgNw.PktTag = (some e, w2)) :
    CreateEndpoint P env w id = (some e, w2) ∧
    (∃ evs : List Event, w2 = { w1 with trace := w1.trace ++ evs } ∧
      ∀ ev ∈ evs, ev.isPortRemoval = false ∧ ev.isStoreUpdate = false) ∧
    (∃ wm, FailedCall env wm w2 e ∨ (P.ParseMAC cfgEp.MacAddress = some e ∧ w2 = wm)) := by
  refine ⟨?_, ?_, ?_⟩
  · rw [createEndpoint_of_reachesBuild hreach]
    unfold createEndpointBuild
    simp only [hname, hport]
  · have h := createPort_appends P env w1 name cfgEp grp.PktTag cfgNw.PktTag
    rw [hport] at h
    obtain ⟨evs, hw, hev⟩ := h
    exact ⟨evs, hw, fun ev hm => isPortBuild_not_update (hev ev hm)⟩
  · obtain ⟨wm, -, hf⟩ := createPort_error hport
    exact ⟨wm, hf⟩

theorem CreateEndpoint_port_failure_no_rollback_witness :
    (CreateEndpoint sampleParams envLinkUpFails sampleWorldFresh "ep1").1
      = some (.core "no such device") :=
  congrArg Prod.fst
    (CreateEndpoint_port_failure_no_rollback sampleParams envLinkUpFails sampleWorldFresh "ep1"
      sampleCfgEp sampleCfgNw (networkTag sampleCfgNw) sampleWorldFreshRead "vport2"
      (getIntfName sampleParams envLinkUpFails sampleWorldFreshRead).2
      (.core "no such device")
      (CreatePort sampleParams envLinkUpFails
        (getIntfName sampleParams envLinkUpFails sampleWorldFreshRead).2 "vport2"
        sampleCfgEp 100 100).2
      ⟨{ sampleWorldFresh with trace := [.readCfgEp "ep1"] },
        { sampleWorldFresh with trace := [.readCfgEp "ep1", .readCfgNw "net1"] },
        { sampleWorldFresh with
          trace := [.readCfgEp "ep1", .readCfgNw "net1", .readEpGroup "0"] },
        by decide, by decide, Or.inr ⟨"0", by decide, rfl⟩, Or.inl ⟨"ep1", by decide⟩⟩
      (by decide) (by decide)).1

/-- C2 fails as stated: the veth pair `vport2`/`vport2-ovs` is created, setting the
link up fails, and `CreateEndpoint` returns that error with the pair left in place:
no veth removal is made. -/
theorem CreateEndpoint_leaves_partial_port :
    (CreateEndpoint sampleParams envLinkUpFails sampleWorldFresh "ep1").1
      = some (.core "no such device") ∧
    (CreateEndpoint sampleParams envLinkUpFails sampleWorldFresh "ep1").2.trace
      = [.readCfgEp "ep1", .readCfgNw "net1", .readEpGroup "0", .readOperEp "ep1",
         .LinkByName "vport2", .writeDriverOper { ID := "h1", CurrPortNum := 2 },
         .createVethPair "vport2" "vport2-ovs", .setLinkUp "vport2-ovs"] ∧
    (CreateEndpoint sampleParams envLinkUpFails sampleWorldFresh "ep1").2.trace.all
      (fun ev => !ev.isPortRemoval) = true := by
  decide

theorem operEpWrite_trace (env : Env) (w : World) (s : OvsOperEndpointState) :
    (OvsOperEndpointState.Write env w s).2.trace = w.trace ++ [.writeOperEp s] := by
  unfold OvsOperEndpointState.Write call
  cases env w.trace (.writeOperEp s) <;> rfl

theorem operEpWrite_accepted {env : Env} {w : World} {s : OvsOperEndpointState}
    (h : env w.trace (.writeOperEp s) = none) :
    (OvsOperEndpointState.Write env w s).1 = none ∧
    (OvsOperEndpointState.Write env w s).2.store.operEps.find? (fun r => decide (r.ID = s.ID))
      = some s := by
  unfold OvsOperEndpointState.Write call
  simp [h]

/-- C8: when the stored operational record of `id` does not match the configuration,
`CreateEndpoint` runs `DeleteEndpoint` on that record and, whatever it returns, goes
on to allocate a name and create the port from the world it leaves; when both
succeed, the last call writes for `id` a record with the configuration's fields and
the new port name, which is the stored record once the write is accepted. -/
theorem CreateEndpoint_mismatch_rebuilds (P : Params) (env : Env) (w : World) (id : String)
    (cfgEp : CfgEndpointState) (w1 : World) (cfgNw : CfgNetworkState) (w2 : World)
    (grp : EndpointGroupState) (w3 : World) (operEp : OvsOperEndpointState) (w4 : World)
    (h1 : CfgEndpointState.Read env w id = (.ok cfgEp, w1))
    (h2 : CfgNetworkState.Read env w1 cfgEp.NetID = (.ok cfgNw, w2))
    (h3 : EndpointGroupState.Read env w2 (toString cfgEp.EndpointGroupID) = (.ok grp, w3) ∨
      ∃ k, EndpointGroupState.Read env w2 (toString cfgEp.EndpointGroupID)
          = (.error (.keyNotFound k), w3) ∧ grp = networkTag cfgNw)
    (h4 : OvsOperEndpointState.Read env w3 id = (.ok operEp, w4))
    (hm : P.Matches operEp cfgEp = false) :
    operEp.ID = id ∧
    CreateEndpoint P env w id =
      createEndpointBuild P env (DeleteEndpoint P env w4 id).2 id cfgEp cfgNw grp ∧
    (∀ name w6 w7, getIntfName P env (DeleteEndpoint P env w4 id).2 = (.ok name, w6) →
      CreatePort P env w6 name cfgEp grp.PktTag cfgNw.PktTag = (none, w7) →
      ∀ rec : OvsOperEndpointState,
        rec = { ID := id, NetID := cfgEp.NetID, AttachUUID := cfgEp.AttachUUID,
                ContName := cfgEp.ContName, ServiceName := cfgEp.ServiceName,
                IPAddress := cfgEp.IPAddress, MacAddress := cfgEp.MacAddress,
                IntfName := cfgEp.IntfName, PortName := name,
                HomingHost := cfgEp.HomingHost, VtepIP := cfgEp.VtepIP } →
        (CreateEndpoint P env w id).2.trace = w7.trace ++ [.writeOperEp rec] ∧
        (env w7.trace (.writeOperEp rec) = none →
          (CreateEndpoint P env w id).1 = none ∧
          (CreateEndpoint P env w id).2.store.operEps.find? (fun r => decide (r.ID = id))
            = some rec)) := by
  have hid := operEpRead_ok_id h4
  have hreach : ReachesBuild P env w id cfgEp cfgNw grp (DeleteEndpoint P env w4 id).2 :=
    ⟨w1, w2, w3, h1, h2, h3, Or.inr ⟨operEp, w4, h4, hm, by rw [hid]⟩⟩
  have heq := createEndpoint_of_reachesBuild hreach
  refine ⟨hid, heq, ?_⟩
  intro name w6 w7 hname hport rec hrec
  have hnew : newOperEp id name cfgEp = rec := by rw [hrec]; rfl
  have hrid : rec.ID = id := by rw [hrec]
  have hb : createEndpointBuild P env (DeleteEndpoint P env w4 id).2 id cfgEp cfgNw grp
      = ((OvsOperEndpointState.Write env w7 rec).1, (OvsOperEndpointState.Write env w7 rec).2) := by
    unfold createEndpointBuild
    simp only [hname, hport, hnew]
    rcases OvsOperEndpointState.Write env w7 rec with ⟨r, w8⟩
    cases r <;> rfl
  rw [heq, hb]
  refine ⟨operEpWrite_trace env w7 rec, ?_⟩
  intro hacc
  have := operEpWrite_accepted hacc
  rw [hrid] at this
  exact this

theorem CreateEndpoint_mismatch_rebuilds_witness :
    (CreateEndpoint sampleParams sampleEnv sampleWorld "ep1").2.store.operEps.find?
      (fun r => decide (r.ID = "ep1")) = some (newOperEp "ep1" "vport2" sampleCfgEp) :=
  (((CreateEndpoint_mismatch_rebuilds sampleParams sampleEnv sampleWorld "ep1"
      sampleCfgEp { sampleWorld with trace := [.readCfgEp "ep1"] }
      sampleCfgNw { sampleWorld with trace := [.readCfgEp "ep1", .readCfgNw "net1"] }
      (networkTag sampleCfgNw)
      { sampleWorld with trace := [.readCfgEp "ep1", .readCfgNw "net1", .readEpGroup "0"] }
      sampleOperEp sampleWorldRead
      (by decide) (by decide) (Or.inr ⟨"0", by decide, rfl⟩) (by decide) (by decide)).2.2
    "vport2"
    (getIntfName sampleParams sampleEnv
      (DeleteEndpoint sampleParams sampleEnv sampleWorldRead "ep1").2).2
    (CreatePort sampleParams sampleEnv
      (getIntfName sampleParams sampleEnv
        (DeleteEndpoint sampleParams sampleEnv sampleWorldRead "ep1").2).2
      "vport2" sampleCfgEp 100 100).2
    (by decide) (by decide) (newOperEp "ep1" "vport2" sampleCfgEp) rfl).2 (by decide)).2

/-! ### getIntfName -/

theorem cand_zero (c : Int) : cand c 0 = c + 1 := by simp [cand]

theorem cand_succ (c : Int) (i : Nat) : cand c (i + 1) = cand (c + 1) i := by
  simp only [cand, Nat.cast_add, Nat.cast_one]
  ring

theorem probes_succ (c : Int) (k : Nat) :
    probes c (k + 1) = .LinkByName (vport (c + 1)) :: probes (c + 1) k := by
  simp only [probes, List.range_succ_eq_map, List.map_cons, List.map_map, cand_zero]
  congr 1
  apply List.map_congr_left
  intro i _
  simp [cand_succ]

theorem probes_isOS (c : Int) (k : Nat) :
    ∀ ev ∈ probes c k, ev.isOS = true ∧ ev.isStoreUpdate = false := by
  intro ev hev
  simp only [probes, List.mem_map] at hev
  obtain ⟨i, -, rfl⟩ := hev
  exact ⟨rfl, rfl⟩

theorem probeFree_succ (env : Env) (tr : List Event) (c : Int) (i : Nat) :
    probeFree env tr c (i + 1) = probeFree env (tr ++ [.LinkByName (vport (c + 1))]) (c + 1) i := by
  simp only [probeFree, probes_succ, cand_succ, List.append_assoc, List.singleton_append]

/-- The step of the loop when the first candidate is free. -/
theorem getIntfNameLoop_first_free (env : Env) (n : Nat) (w : World)
    (h : probeFree env w.trace w.oper.CurrPortNum 0 = true) :
    getIntfNameLoop env (n + 1) w =
      match OpflexDriverOperState.Write env (acceptWorld w 0) with
      | (some werr, w3) => (.error werr, w3)
      | (none, w3) => (.ok (vport (cand w.oper.CurrPortNum 0)), w3) := by
  simp only [probeFree, probes, List.range_zero, List.map_nil, List.append_nil, cand_zero] at h
  have hp : probes w.oper.CurrPortNum (0 + 1) = [.LinkByName (vport (w.oper.CurrPortNum + 1))] := by
    rw [probes_succ]
    simp [probes]
  simp only [getIntfNameLoop, call, acceptWorld, cand_zero, hp]
  cases he : env w.trace (.LinkByName (vport (w.oper.CurrPortNum + 1))) with
  | none => simp [he] at h
  | some err =>
    simp only [he] at h
    simp only [h, ite_true]

/-- The step of the loop when the first candidate is not free. -/
theorem getIntfNameLoop_first_taken (env : Env) (n : Nat) (w : World)
    (h : probeFree env w.trace w.oper.CurrPortNum 0 = false) :
    getIntfNameLoop env (n + 1) w =
      getIntfNameLoop env n
        { oper := { w.oper with CurrPortNum := w.oper.CurrPortNum + 1 }
          store := w.store
          trace := w.trace ++ [.LinkByName (vport (w.oper.CurrPortNum + 1))] } := by
  simp only [probeFree, probes, List.range_zero, List.map_nil, List.append_nil, cand_zero] at h
  simp only [getIntfNameLoop, call]
  cases he : env w.trace (.LinkByName (vport (w.oper.CurrPortNum + 1))) with
  | none => rfl
  | some err =>
    simp only [he] at h
    simp only [h, Bool.false_eq_true, ite_false]

theorem getIntfNameLoop_found (env : Env) :
    ∀ (n : Nat) (w : World) (i : Nat), i < n →
      probeFree env w.trace w.oper.CurrPortNum i = true →
      (∀ j, j < i → probeFree env w.trace w.oper.CurrPortNum j = false) →
      getIntfNameLoop env n w =
        match OpflexDriverOperState.Write env (acceptWorld w i) with
        | (some werr, w3) => (.error werr, w3)
        | (none, w3) => (.ok (vport (cand w.oper.CurrPortNum i)), w3) := by
  intro n
  induction n with
  | zero => intro w i hi; omega
  | succ n ih =>
    intro w i hi hfree hleast
    cases i with
    | zero => exact getIntfNameLoop_first_free env n w hfree
    | succ i =>
      rw [getIntfNameLoop_first_taken env n w (hleast 0 (Nat.succ_pos i))]
      rw [ih _ i (by omega)]
      · simp only [acceptWorld, cand_succ, probes_succ w.oper.CurrPortNum (i + 1),
          List.append_assoc, List.singleton_append]
      · rw [← probeFree_succ]; exact hfree
      · intro j hj
        rw [← probeFree_succ]
        exact hleast (j + 1) (by omega)

theorem getIntfNameLoop_exhausted (env : Env) :
    ∀ (n : Nat) (w : World),
      (∀ j, j < n → probeFree env w.trace w.oper.CurrPortNum j = false) →
      getIntfNameLoop env n w =
        (.error (.core "Could not get intf name. Max retry exceeded"),
          { oper := { w.oper with CurrPortNum := w.oper.CurrPortNum + n }
            store := w.store
            trace := w.trace ++ probes w.oper.CurrPortNum n }) := by
  intro n
  induction n with
  | zero =>
    intro w _
    simp [getIntfNameLoop, probes]
  | succ n ih =>
    intro w hall
    rw [getIntfNameLoop_first_taken env n w (hall 0 (Nat.succ_pos n))]
    rw [ih]
    · simp only [probes_succ w.oper.CurrPortNum n, List.append_assoc, List.singleton_append,
        Nat.cast_add, Nat.cast_one, Prod.mk.injEq, true_and]
      congr 2
      ring
    · intro j hj
      rw [← probeFree_succ]
      exact hall (j + 1) (by omega)

theorem driverOperWrite_trace (env : Env) (w : World) :
    (OpflexDriverOperState.Write env w).2.trace = w.trace ++ [.writeDriverOper w.oper] := by
  unfold OpflexDriverOperState.Write call
  cases env w.trace (.writeDriverOper w.oper) <;> rfl

theorem driverOperWrite_accepted {env : Env} {w : World}
    (h : env w.trace (.writeDriverOper w.oper) = none) :
    (OpflexDriverOperState.Write env w).1 = none ∧
    (OpflexDriverOperState.Write env w).2.store.driverOper.find?
      (fun r => decide (r.ID = w.oper.ID)) = some w.oper := by
  unfold OpflexDriverOperState.Write call
  simp [h]

theorem driverOperWrite_rejected {env : Env} {w : World} {werr : Error}
    (h : env w.trace (.writeDriverOper w.oper) = some werr) :
    (OpflexDriverOperState.Write env w).1 = some werr ∧
    (OpflexDriverOperState.Write env w).2.store = w.store := by
  unfold OpflexDriverOperState.Write call
  simp [h]

/-- C6, as the code behaves: from counter value `c`, `getIntfName` probes
`vport(c+1)`, `vport(c+2)`, ... in order, at most `maxIntfRetry` of them.  At the
first candidate whose probe reports "not found" it stops probing and writes the
driver state with that candidate's number; it returns the candidate's name when the
write is accepted, and the write's error, with the store unchanged, when it is not.
When no candidate is free it fails having made the probes only.  A name it returns
is a candidate whose probe reported "not found". -/
theorem getIntfName_allocation (P : Params) (env : Env) (w : World) :
    (∀ i, i < P.maxIntfRetry → probeFree env w.trace w.oper.CurrPortNum i = true →
      (∀ j, j < i → probeFree env w.trace w.oper.CurrPortNum j = false) →
      (getIntfName P env w).2.trace =
        w.trace ++ probes w.oper.CurrPortNum (i + 1) ++
          [.writeDriverOper { ID := w.oper.ID, CurrPortNum := cand w.oper.CurrPortNum i }] ∧
      (env (w.trace ++ probes w.oper.CurrPortNum (i + 1))
          (.writeDriverOper { ID := w.oper.ID, CurrPortNum := cand w.oper.CurrPortNum i })
            = none →
        (getIntfName P env w).1 = .ok (vport (cand w.oper.CurrPortNum i)) ∧
        (getIntfName P env w).2.store.driverOper.find? (fun r => decide (r.ID = w.oper.ID))
          = some { ID := w.oper.ID, CurrPortNum := cand w.oper.CurrPortNum i }) ∧
      (∀ werr, env (w.trace ++ probes w.oper.CurrPortNum (i + 1))
          (.writeDriverOper { ID := w.oper.ID, CurrPortNum := cand w.oper.CurrPortNum i })
            = some werr →
        (getIntfName P env w).1 = .error werr ∧
        (getIntfName P env w).2.store = w.store)) ∧
    ((∀ j, j < P.maxIntfRetry → probeFree env w.trace w.oper.CurrPortNum j = false) →
      getIntfName P env w =
        (.error (.core "Could not get intf name. Max retry exceeded"),
          { oper := { w.oper with CurrPortNum := w.oper.CurrPortNum + P.maxIntfRetry }
            store := w.store
            trace := w.trace ++ probes w.oper.CurrPortNum P.maxIntfRetry })) ∧
    (∀ name w2, getIntfName P env w = (.ok name, w2) →
      ∃ i, i < P.maxIntfRetry ∧ name = vport (cand w.oper.CurrPortNum i) ∧
        probeFree env w.trace w.oper.CurrPortNum i = true) := by
  have hfound : ∀ i, i < P.maxIntfRetry → probeFree env w.trace w.oper.CurrPortNum i = true →
      (∀ j, j < i → probeFree env w.trace w.oper.CurrPortNum j = false) →
      getIntfName P env w =
        match OpflexDriverOperState.Write env (acceptWorld w i) with
        | (some werr, w3) => (.error werr, w3)
        | (none, w3) => (.ok (vport (cand w.oper.CurrPortNum i)), w3) :=
    fun i hi hf hl => getIntfNameLoop_found env P.maxIntfRetry w i hi hf hl
  have hsnd : ∀ i, i < P.maxIntfRetry → probeFree env w.trace w.oper.CurrPortNum i = true →
      (∀ j, j < i → probeFree env w.trace w.oper.CurrPortNum j = false) →
      (getIntfName P env w).2 = (OpflexDriverOperState.Write env (acceptWorld w i)).2 := by
    intro i hi hf hl
    rw [hfound i hi hf hl]
    rcases OpflexDriverOperState.Write env (acceptWorld w i) with ⟨r, w3⟩
    cases r <;> rfl
  have hexh : (∀ j, j < P.maxIntfRetry → probeFree env w.trace w.oper.CurrPortNum j = false) →
      getIntfName P env w =
        (.error (.core "Could not get intf name. Max retry exceeded"),
          { oper := { w.oper with CurrPortNum := w.oper.CurrPortNum + P.maxIntfRetry }
            store := w.store
            trace := w.trace ++ probes w.oper.CurrPortNum P.maxIntfRetry }) :=
    fun h => getIntfNameLoop_exhausted env P.maxIntfRetry w h
  refine ⟨?_, hexh, ?_⟩
  · intro i hi hf hl
    refine ⟨?_, ?_, ?_⟩
    · rw [hsnd i hi hf hl, driverOperWrite_trace]
      rfl
    · intro hacc
      have ha := @driverOperWrite_accepted env (acceptWorld w i) hacc
      refine ⟨?_, ?_⟩
      · rw [hfound i hi hf hl]
        rcases hw : OpflexDriverOperState.Write env (acceptWorld w i) with ⟨r, w3⟩
        rw [hw] at ha
        simp only at ha
        rw [ha.1]
      · rw [hsnd i hi hf hl]
        exact ha.2
    · intro werr hrej
      have hr := @driverOperWrite_rejected env (acceptWorld w i) werr hrej
      refine ⟨?_, ?_⟩
      · rw [hfound i hi hf hl]
        rcases hw : OpflexDriverOperState.Write env (acceptWorld w i) with ⟨r, w3⟩
        rw [hw] at hr
        simp only at hr
        rw [hr.1]
      · rw [hsnd i hi hf hl]
        exact hr.2
  · intro name w2 hok
    by_cases hex : ∃ i, i < P.maxIntfRetry ∧ probeFree env w.trace w.oper.CurrPortNum i = true
    · have hi := Nat.find_spec hex
      have hl : ∀ j, j < Nat.find hex → probeFree env w.trace w.oper.CurrPortNum j = false := by
        intro j hj
        have := Nat.find_min hex hj
        simp only [not_and, Bool.not_eq_true] at this
        exact this (lt_trans hj hi.1)
      refine ⟨Nat.find hex, hi.1, ?_, hi.2⟩
      have := hfound _ hi.1 hi.2 hl
      rw [hok] at this
      rcases hw : OpflexDriverOperState.Write env (acceptWorld w (Nat.find hex)) with ⟨r, w3⟩
      rw [hw] at this
      cases r with
      | some werr => simp at this
      | none =>
        simp only [Prod.mk.injEq, Except.ok.injEq] at this
        exact this.1
    · have hall : ∀ j, j < P.maxIntfRetry →
          probeFree env w.trace w.oper.CurrPortNum j = false := by
        intro j hj
        by_contra hne
        exact hex ⟨j, hj, by simpa using hne⟩
      have := hexh hall
      rw [hok] at this
      simp at this

theorem getIntfName_allocation_witness :
    (getIntfName sampleParams sampleEnv sampleWorld).1 = .ok "vport2" ∧
    (getIntfName sampleParams sampleEnv sampleWorld).2.store.driverOper.find?
      (fun r => decide (r.ID = "h1")) = some { ID := "h1", CurrPortNum := 2 } :=
  ((getIntfName_allocation sampleParams sampleEnv sampleWorld).1 0 (by decide) (by decide)
    (by intro j hj; omega)).2.1 (by decide)

/-- C6 fails as stated: the probe of the first candidate `vport2` reports "not
found", but the write of the counter fails, and `getIntfName` returns the write's
error instead of the name. -/
theorem getIntfName_write_error_no_name :
    probeFree envCounterWriteFails sampleWorld.trace sampleWorld.oper.CurrPortNum 0 = true ∧
    vport (cand sampleWorld.oper.CurrPortNum 0) = "vport2" ∧
    (getIntfName sampleParams envCounterWriteFails sampleWorld).1
      = .error (.core "etcd cluster is unavailable") ∧
    (getIntfName sampleParams envCounterWriteFails sampleWorld).1 ≠ .ok "vport2" ∧
    (getIntfName sampleParams envCounterWriteFails sampleWorld).2.store = sampleWorld.store := by
  decide

/-! ### The resource allocator -/

theorem readAll_world (env : RsrcEnv) (w : RsrcWorld) (t : RsrcType) :
    (Resource.ReadAll env w t).2 = { w with trace := w.trace ++ [.ReadAll t] } := by
  unfold Resource.ReadAll
  cases env w.trace t <;> rfl

theorem readAll_ok {env : RsrcEnv} {w w1 : RsrcWorld} {t : RsrcType} {rs : List Resource}
    (h : Resource.ReadAll env w t = (.ok rs, w1)) :
    rs = w.rsrcs.filter (fun r => decide (r.rsrcType = t)) ∧
    w1 = { w with trace := w.trace ++ [.ReadAll t] } := by
  unfold Resource.ReadAll at h
  cases he : env w.trace t with
  | some err => simp [he] at h
  | none =>
    simp only [he, Prod.mk.injEq, Except.ok.injEq] at h
    exact ⟨h.1.symm, h.2.symm⟩

/-- What `findResource` returns once the descriptor is registered and the instances
are read: the first instance read with the id, or a fresh instance carrying the id. -/
theorem findResource_read {K : RsrcParams} {env : RsrcEnv} {w w1 : RsrcWorld}
    {id desc : String} {t : RsrcType} {rs : List Resource}
    (hreg : ResourceRegistry K desc = some t)
    (hread : Resource.ReadAll env w t = (.ok rs, w1)) :
    findResource K env w id desc =
      match rs.find? (fun r => decide (r.Id = id)) with
      | some r => (.ok (r, true), w1)
      | none => (.ok ({ rsrcType := t, Id := id, content := "" }, false), w1) := by
  unfold findResource
  simp only [hreg, hread]

theorem find_id_none {rs : List Resource} {id : String} (h : ∀ r ∈ rs, r.Id ≠ id) :
    rs.find? (fun r => decide (r.Id = id)) = none := by
  rw [List.find?_eq_none]
  intro r hr
  simpa using h r hr

theorem find_id_some {rs : List Resource} {id : String} (h : ∃ r ∈ rs, r.Id = id) :
    ∃ r, rs.find? (fun r => decide (r.Id = id)) = some r := by
  cases hf : rs.find? (fun r => decide (r.Id = id)) with
  | some r => exact ⟨r, rfl⟩
  | none =>
    rw [List.find?_eq_none] at hf
    obtain ⟨r, hr, hid⟩ := h
    exact absurd (by simpa using hid) (hf r hr)

/-- C9: `DefineResource` fails with the unknown-description error, making no call,
when the descriptor is not registered; fails with the already-exists error, having
made the `ReadAll` only, when the instances read include one with the id; and when
none of the instances read has the id, calls `Init` once, on a fresh instance
carrying the id, after the `ReadAll`, and returns the result of `Init`.  So when an
instance with this type and id is in the store and the store answers the read,
`DefineResource` fails with already-exists. -/
theorem DefineResource_cases (K : RsrcParams) (env : RsrcEnv) (w : RsrcWorld)
    (id desc rsrcCfg : String) :
    (ResourceRegistry K desc = none →
      DefineResource K env w id desc rsrcCfg =
        (some (.core ("No resource found for description: " ++ K.quote desc)), w)) ∧
    (∀ t rs w1, ResourceRegistry K desc = some t →
      Resource.ReadAll env w t = (.ok rs, w1) →
      ((∃ r ∈ rs, r.Id = id) →
        DefineResource K env w id desc rsrcCfg =
          (some (.core ("Resource with id: " ++ K.quote id ++ " already exists")),
            { w with trace := w.trace ++ [.ReadAll t] })) ∧
      ((∀ r ∈ rs, r.Id ≠ id) →
        DefineResource K env w id desc rsrcCfg =
          ((K.Init { rsrcType := t, Id := id, content := "" } rsrcCfg w.rsrcs).1,
            { rsrcs := (K.Init { rsrcType := t, Id := id, content := "" } rsrcCfg w.rsrcs).2
              trace := w.trace ++
                [.ReadAll t, .Init { rsrcType := t, Id := id, content := "" } rsrcCfg] }))) ∧
    (∀ t r, ResourceRegistry K desc = some t → env w.trace t = none →
      r ∈ w.rsrcs → r.rsrcType = t → r.Id = id →
      DefineResource K env w id desc rsrcCfg =
        (some (.core ("Resource with id: " ++ K.quote id ++ " already exists")),
          { w with trace := w.trace ++ [.ReadAll t] })) := by
  have hmid : ∀ t rs w1, ResourceRegistry K desc = some t →
      Resource.ReadAll env w t = (.ok rs, w1) →
      ((∃ r ∈ rs, r.Id = id) →
        DefineResource K env w id desc rsrcCfg =
          (some (.core ("Resource with id: " ++ K.quote id ++ " already exists")),
            { w with trace := w.trace ++ [.ReadAll t] })) ∧
      ((∀ r ∈ rs, r.Id ≠ id) →
        DefineResource K env w id desc rsrcCfg =
          ((K.Init { rsrcType := t, Id := id, content := "" } rsrcCfg w.rsrcs).1,
            { rsrcs := (K.Init { rsrcType := t, Id := id, content := "" } rsrcCfg w.rsrcs).2
              trace := w.trace ++
                [.ReadAll t, .Init { rsrcType := t, Id := id, content := "" } rsrcCfg] })) := by
    intro t rs w1 hreg hread
    have hw1 := (readAll_ok hread).2
    refine ⟨?_, ?_⟩
    · intro hex
      obtain ⟨r, hr⟩ := find_id_some hex
      unfold DefineResource
      rw [findResource_read hreg hread, hr]
      simp only [ite_true, hw1]
    · intro hall
      unfold DefineResource
      rw [findResource_read hreg hread, find_id_none hall]
      simp only [Bool.false_eq_true, ite_false, hw1]
      rcases K.Init { rsrcType := t, Id := id, content := "" } rsrcCfg w.rsrcs with ⟨r, rs2⟩
      cases r <;> simp
  refine ⟨?_, hmid, ?_⟩
  · intro hreg
    unfold DefineResource findResource
    simp only [hreg]
  · intro t r hreg hans hmem ht hid
    have hread : Resource.ReadAll env w t =
        (.ok (w.rsrcs.filter fun r => decide (r.rsrcType = t)),
          { w with trace := w.trace ++ [.ReadAll t] }) := by
      unfold Resource.ReadAll
      simp only [hans]
    refine (hmid t _ _ hreg hread).1 ⟨r, ?_, hid⟩
    simp only [List.mem_filter, decide_eq_true_eq]
    exact ⟨hmem, ht⟩

theorem DefineResource_cases_witness :
    DefineResource sampleRsrcParams sampleRsrcEnv sampleRsrcDefined "vlan1" "auto-vlan" "100-104"
      = (some (.core "Resource with id: [vlan1] already exists"),
          { sampleRsrcDefined with trace := [.ReadAll .AutoVlanCfgResource] }) ∧
    DefineResource sampleRsrcParams sampleRsrcEnv sampleRsrcEmpty "vlan1" "auto-vlan" "100-104"
      = (none, { rsrcs := [sampleVlan]
                 trace := [.ReadAll .AutoVlanCfgResource,
                   .Init { rsrcType := .AutoVlanCfgResource, Id := "vlan1", content := "" }
                     "100-104"] }) ∧
    DefineResource sampleRsrcParams sampleRsrcEnv sampleRsrcEmpty "vlan1" "vlan" "100-104"
      = (some (.core "No resource found for description: [vlan]"), sampleRsrcEmpty) :=
  ⟨(DefineResource_cases sampleRsrcParams sampleRsrcEnv sampleRsrcDefined "vlan1" "auto-vlan"
      "100-104").2.2 .AutoVlanCfgResource sampleVlan (by decide) (by decide) (by decide)
      (by decide) (by decide),
   ((DefineResource_cases sampleRsrcParams sampleRsrcEnv sampleRsrcEmpty "vlan1" "auto-vlan"
      "100-104").2.1 .AutoVlanCfgResource []
      { sampleRsrcEmpty with trace := [.ReadAll .AutoVlanCfgResource] }
      (by decide) (by decide)).2 (by decide),
   (DefineResource_cases sampleRsrcParams sampleRsrcEnv sampleRsrcEmpty "vlan1" "vlan"
      "100-104").1 (by decide)⟩

/-- C10: for a registered descriptor whose instances are read, when none of them has
the id, `UndefineResource`, `AllocateResourceVal` and `DeallocateResourceVal` fail
with the not-found error having made the `ReadAll` only; when one has the id, each
makes its one call on an instance read from the store with that id and returns that
call's result (nil after `Deinit`), and after `UndefineResource` no instance of that
type and id is persisted. -/
theorem undefine_allocate_deallocate_cases (K : RsrcParams) (env : RsrcEnv) (w : RsrcWorld)
    (id desc : String) (t : RsrcType) (rs : List Resource) (w1 : RsrcWorld)
    (hreg : ResourceRegistry K desc = some t)
    (hread : Resource.ReadAll env w t = (.ok rs, w1)) :
    ((∀ r ∈ rs, r.Id ≠ id) →
      UndefineResource K env w id desc =
        (some (noResourceFound K id desc), { w with trace := w.trace ++ [.ReadAll t] }) ∧
      AllocateResourceVal K env w id desc =
        ((none, some (noResourceFound K id desc)),
          { w with trace := w.trace ++ [.ReadAll t] }) ∧
      ∀ value, DeallocateResourceVal K env w id desc value =
        (some (noResourceFound K id desc), { w with trace := w.trace ++ [.ReadAll t] })) ∧
    ((∃ r ∈ rs, r.Id = id) →
      ∃ r ∈ rs, r ∈ w.rsrcs ∧ r.rsrcType = t ∧ r.Id = id ∧
        UndefineResource K env w id desc =
          (none,
            { rsrcs := w.rsrcs.filter fun x =>
                !(decide (x.rsrcType = r.rsrcType) && decide (x.Id = r.Id))
              trace := w.trace ++ [.ReadAll t, .Deinit r] }) ∧
        (∀ x ∈ (UndefineResource K env w id desc).2.rsrcs, ¬(x.rsrcType = t ∧ x.Id = id)) ∧
        AllocateResourceVal K env w id desc =
          ((K.Allocate r w.rsrcs).1,
            { rsrcs := (K.Allocate r w.rsrcs).2
              trace := w.trace ++ [.ReadAll t, .Allocate r] }) ∧
        ∀ value, DeallocateResourceVal K env w id desc value =
          ((K.Deallocate r value w.rsrcs).1,
            { rsrcs := (K.Deallocate r value w.rsrcs).2
              trace := w.trace ++ [.ReadAll t, .Deallocate r value] })) := by
  obtain ⟨hrs, hw1⟩ := readAll_ok hread
  refine ⟨?_, ?_⟩
  · intro hall
    have hf := @findResource_read K env w w1 id desc t rs hreg hread
    rw [find_id_none hall] at hf
    refine ⟨?_, ?_, ?_⟩
    · unfold UndefineResource
      simp only [hf, Bool.not_false, ite_true, hw1]
    · unfold AllocateResourceVal
      simp only [hf, Bool.not_false, ite_true, hw1]
    · intro value
      unfold DeallocateResourceVal
      simp only [hf, Bool.not_false, ite_true, hw1]
  · intro hex
    obtain ⟨r, hr⟩ := find_id_some hex
    have hf := @findResource_read K env w w1 id desc t rs hreg hread
    rw [hr] at hf
    have hmem : r ∈ rs := List.mem_of_find?_eq_some hr
    have hid : r.Id = id := by simpa using List.find?_some hr
    have hmem2 : r ∈ w.rsrcs ∧ r.rsrcType = t := by
      rw [hrs] at hmem
      simpa [List.mem_filter] using hmem
    have hund : UndefineResource K env w id desc =
        (none,
          { rsrcs := w.rsrcs.filter fun x =>
              !(decide (x.rsrcType = r.rsrcType) && decide (x.Id = r.Id))
            trace := w.trace ++ [.ReadAll t, .Deinit r] }) := by
      unfold UndefineResource
      simp only [hf, Bool.not_true, Bool.false_eq_true, ite_false, Resource.Deinit, hw1,
        List.append_assoc, List.singleton_append]
    refine ⟨r, hmem, hmem2.1, hmem2.2, hid, hund, ?_, ?_, ?_⟩
    · rw [hund]
      intro x hx hxx
      simp only [List.mem_filter, Bool.not_eq_true', Bool.and_eq_false_imp,
        decide_eq_true_eq, decide_eq_false_iff_not] at hx
      exact hx.2 (by rw [hxx.1, hmem2.2]) (by rw [hxx.2, hid])
    · unfold AllocateResourceVal
      simp only [hf, Bool.not_true, Bool.false_eq_true, ite_false, hw1, List.append_assoc,
        List.singleton_append]
    · intro value
      unfold DeallocateResourceVal
      simp only [hf, Bool.not_true, Bool.false_eq_true, ite_false, hw1, List.append_assoc,
        List.singleton_append]

theorem undefine_allocate_deallocate_cases_witness :
    (∃ r ∈ [sampleVlan], r ∈ sampleRsrcDefined.rsrcs ∧ r.rsrcType = .AutoVlanCfgResource ∧
      r.Id = "vlan1" ∧
      UndefineResource sampleRsrcParams sampleRsrcEnv sampleRsrcDefined "vlan1" "auto-vlan" =
        (none,
          { rsrcs := sampleRsrcDefined.rsrcs.filter fun x =>
              !(decide (x.rsrcType = r.rsrcType) && decide (x.Id = r.Id))
            trace := sampleRsrcDefined.trace ++ [.ReadAll .AutoVlanCfgResource, .Deinit r] }) ∧
      (∀ x ∈ (UndefineResource sampleRsrcParams sampleRsrcEnv sampleRsrcDefined "vlan1"
          "auto-vlan").2.rsrcs, ¬(x.rsrcType = .AutoVlanCfgResource ∧ x.Id = "vlan1")) ∧
      AllocateResourceVal sampleRsrcParams sampleRsrcEnv sampleRsrcDefined "vlan1" "auto-vlan" =
        ((sampleRsrcParams.Allocate r sampleRsrcDefined.rsrcs).1,
          { rsrcs := (sampleRsrcParams.Allocate r sampleRsrcDefined.rsrcs).2
            trace := sampleRsrcDefined.trace ++
              [.ReadAll .AutoVlanCfgResource, .Allocate r] }) ∧
      ∀ value,
        DeallocateResourceVal sampleRsrcParams sampleRsrcEnv sampleRsrcDefined "vlan1"
            "auto-vlan" value =
          ((sampleRsrcParams.Deallocate r value sampleRsrcDefined.rsrcs).1,
            { rsrcs := (sampleRsrcParams.Deallocate r value sampleRsrcDefined.rsrcs).2
              trace := sampleRsrcDefined.trace ++
                [.ReadAll .AutoVlanCfgResource, .Deallocate r value] })) :=
  (undefine_allocate_deallocate_cases sampleRsrcParams sampleRsrcEnv sampleRsrcDefined "vlan1"
    "auto-vlan" .AutoVlanCfgResource [sampleVlan]
    { sampleRsrcDefined with trace := [.ReadAll .AutoVlanCfgResource] }
    (by decide) (by decide)).2 ⟨sampleVlan, by decide, by decide⟩

/-! ### The packet tag of CreateEndpoint -/

/-- The run with log lines makes the calls and returns the result of `CreatePort`. -/
theorem createPortLog_run (P : Params) (env : Env) (w : World) (intfName : String)
    (cfgEp : CfgEndpointState) (pktTag nwPktTag : Int) :
    (CreatePortLog P env w intfName cfgEp pktTag nwPktTag).1
      = CreatePort P env w intfName cfgEp pktTag nwPktTag := by
  unfold CreatePortLog CreatePort
  rcases createPortLinks P env w intfName with ⟨r, w1⟩
  cases r with
  | some err => rfl
  | none =>
    simp only
    rcases call env w1 (.setLinkMtu intfName P.vxlanEndpointMtu) with ⟨r2, w2⟩
    cases r2 with
    | some err => rfl
    | none =>
      simp only
      rcases SetInterfaceMac P env w2 intfName cfgEp.MacAddress with ⟨r3, w3⟩
      cases r3 <;> rfl

/-- The log lines of a `CreatePort` that succeeds: the two final lines, with the
tags it was called with. -/
theorem createPortLog_success {P : Params} {env : Env} {w w6 : World} {intfName : String}
    {cfgEp : CfgEndpointState} {pktTag nwPktTag : Int}
    (h : CreatePort P env w intfName cfgEp pktTag nwPktTag = (none, w6)) :
    (CreatePortLog P env w intfName cfgEp pktTag nwPktTag).2 =
      [.createPort (if P.useVethPair then P.getExtPortName intfName else intfName)
          (if P.useVethPair then "" else "internal") cfgEp.ID pktTag,
       .createPortTags nwPktTag cfgEp.IPAddress cfgEp.EndpointGroupID] := by
  unfold CreatePort at h
  unfold CreatePortLog
  rcases hl : createPortLinks P env w intfName with ⟨r, w1⟩
  rw [hl] at h
  cases r with
  | some err => simp at h
  | none =>
    simp only at h ⊢
    rcases hm : call env w1 (.setLinkMtu intfName P.vxlanEndpointMtu) with ⟨r2, w2⟩
    rw [hm] at h
    cases r2 with
    | some err => simp at h
    | none =>
      simp only at h ⊢
      rcases hs : SetInterfaceMac P env w2 intfName cfgEp.MacAddress with ⟨r3, w3⟩
      rw [hs] at h
      cases r3 with
      | some err => simp at h
      | none => rfl

theorem createEndpointBuildLog_run (P : Params) (env : Env) (w : World) (id : String)
    (cfgEp : CfgEndpointState) (cfgNw : CfgNetworkState) (cfgEpGroup : EndpointGroupState) :
    (createEndpointBuildLog P env w id cfgEp cfgNw cfgEpGroup).1
      = createEndpointBuild P env w id cfgEp cfgNw cfgEpGroup := by
  unfold createEndpointBuildLog createEndpointBuild
  rcases getIntfName P env w with ⟨r, w1⟩
  cases r with
  | error err => rfl
  | ok intfName =>
    simp only
    rw [← createPortLog_run]
    rcases CreatePortLog P env w1 intfName cfgEp cfgEpGroup.PktTag cfgNw.PktTag
      with ⟨⟨r2, w2⟩, logs⟩
    cases r2 with
    | some err => rfl
    | none =>
      simp only
      rcases OvsOperEndpointState.Write env w2 (newOperEp id intfName cfgEp) with ⟨r3, w3⟩
      cases r3 <;> rfl

/-- The log lines of the build stage are those of its `CreatePort` call, made with
the tag of `cfgEpGroup` and the tag of the network. -/
theorem createEndpointBuildLog_logs {P : Params} {env : Env} {w w5 : World} {id name : String}
    {cfgEp : CfgEndpointState} {cfgNw : CfgNetworkState} {cfgEpGroup : EndpointGroupState}
    (hname : getIntfName P env w = (.ok name, w5)) :
    (createEndpointBuildLog P env w id cfgEp cfgNw cfgEpGroup).2
      = (CreatePortLog P env w5 name cfgEp cfgEpGroup.PktTag cfgNw.PktTag).2 := by
  unfold createEndpointBuildLog
  simp only [hname]
  rcases CreatePortLog P env w5 name cfgEp cfgEpGroup.PktTag cfgNw.PktTag
    with ⟨⟨r2, w2⟩, logs⟩
  cases r2 with
  | some err => rfl
  | none =>
    simp only
    rcases OvsOperEndpointState.Write env w2 (newOperEp id name cfgEp) with ⟨r3, w3⟩
    cases r3 <;> rfl

theorem createEndpointReconcileLog_run (P : Params) (env : Env) (w : World) (id : String)
    (cfgEp : CfgEndpointState) (cfgNw : CfgNetworkState) (cfgEpGroup : EndpointGroupState) :
    (createEndpointReconcileLog P env w id cfgEp cfgNw cfgEpGroup).1
      = createEndpointReconcile P env w id cfgEp cfgNw cfgEpGroup := by
  unfold createEndpointReconcileLog createEndpointReconcile
  rcases OvsOperEndpointState.Read env w id with ⟨r, w1⟩
  cases r with
  | error err =>
    simp only
    cases ErrIfKeyExists (some err) with
    | some e => rfl
    | none => exact createEndpointBuildLog_run P env w1 id cfgEp cfgNw cfgEpGroup
  | ok operEp =>
    simp only
    cases P.Matches operEp cfgEp with
    | true => rfl
    | false =>
      simp only [Bool.false_eq_true, ite_false]
      exact createEndpointBuildLog_run P env _ id cfgEp cfgNw cfgEpGroup

/-- When the reconcile stage goes on to the build, its log lines are those of the
build. -/
theorem createEndpointReconcileLog_logs {P : Params} {env : Env} {w3 w0 : World}
    {id : String} {cfgEp : CfgEndpointState} (cfgNw : CfgNetworkState)
    (cfgEpGroup : EndpointGroupState)
    (h : ReconcileReachesBuild P env w3 id cfgEp w0) :
    (createEndpointReconcileLog P env w3 id cfgEp cfgNw cfgEpGroup).2
      = (createEndpointBuildLog P env w0 id cfgEp cfgNw cfgEpGroup).2 := by
  unfold createEndpointReconcileLog
  rcases h with ⟨k, h4⟩ | ⟨operEp, w4, h4, hm, hd⟩
  · simp only [h4, ErrIfKeyExists]
  · simp only [h4, hm, hd, Bool.false_eq_true, ite_false]

/-- The run with log lines makes the calls and returns the result of
`CreateEndpoint`. -/
theorem createEndpointLog_run (P : Params) (env : Env) (w : World) (id : String) :
    (CreateEndpointLog P env w id).1 = CreateEndpoint P env w id := by
  unfold CreateEndpointLog CreateEndpoint resolveEpGroup
  rcases CfgEndpointState.Read env w id with ⟨r, w1⟩
  cases r with
  | error err => rfl
  | ok cfgEp =>
    simp only
    rcases CfgNetworkState.Read env w1 cfgEp.NetID with ⟨r2, w2⟩
    cases r2 with
    | error err => rfl
    | ok cfgNw =>
      simp only
      rcases EndpointGroupState.Read env w2 (toString cfgEp.EndpointGroupID) with ⟨r3, w3⟩
      cases r3 with
      | ok grp =>
        simp only
        exact createEndpointReconcileLog_run P env w3 id cfgEp cfgNw grp
      | error err =>
        simp only
        cases ErrIfKeyExists (some err) with
        | some e => rfl
        | none =>
          simp only
          exact createEndpointReconcileLog_run P env w3 id cfgEp cfgNw (networkTag cfgNw)

/-- C11: in `CreateEndpoint`, with the endpoint and network records read: when the
group read fails with NotFound, the group state after lines 223-234 carries the
network's `PktTag` and `PktTagType`, the create continues, and the tag `CreatePort`
is called with and logs is the network's `PktTag`; when the group read succeeds, the
group read is used and `CreatePort` is called with and logs the group's `PktTag`;
when the group read fails with any other error, `CreateEndpoint` returns that error
after the three reads, nothing logged, the driver state and the store unchanged: no
name allocated, no port call, no operational record written.  The packet tag only
shows in log lines, so it is read off the run with log lines, which returns what
`CreateEndpoint` returns. -/
theorem CreateEndpoint_group_tag (P : Params) (env : Env) (w : World) (id : String)
    (cfgEp : CfgEndpointState) (w1 : World) (cfgNw : CfgNetworkState) (w2 : World)
    (h1 : CfgEndpointState.Read env w id = (.ok cfgEp, w1))
    (h2 : CfgNetworkState.Read env w1 cfgEp.NetID = (.ok cfgNw, w2)) :
    (CreateEndpointLog P env w id).1 = CreateEndpoint P env w id ∧
    (∀ k w3, EndpointGroupState.Read env w2 (toString cfgEp.EndpointGroupID)
        = (.error (.keyNotFound k), w3) →
      resolveEpGroup env w2 cfgEp cfgNw =
        (.ok { ID := "", PktTagType := cfgNw.PktTagType, PktTag := cfgNw.PktTag }, w3, []) ∧
      CreateEndpoint P env w id =
        createEndpointReconcile P env w3 id cfgEp cfgNw
          { ID := "", PktTagType := cfgNw.PktTagType, PktTag := cfgNw.PktTag } ∧
      ∀ w0 name w5, ReconcileReachesBuild P env w3 id cfgEp w0 →
        getIntfName P env w0 = (.ok name, w5) →
        (CreateEndpointLog P env w id).2 =
          (CreatePortLog P env w5 name cfgEp cfgNw.PktTag cfgNw.PktTag).2 ∧
        ∀ w6, CreatePort P env w5 name cfgEp cfgNw.PktTag cfgNw.PktTag = (none, w6) →
          (CreateEndpointLog P env w id).2 =
            [.createPort (if P.useVethPair then P.getExtPortName name else name)
                (if P.useVethPair then "" else "internal") cfgEp.ID cfgNw.PktTag,
             .createPortTags cfgNw.PktTag cfgEp.IPAddress cfgEp.EndpointGroupID]) ∧
    (∀ grp w3, EndpointGroupState.Read env w2 (toString cfgEp.EndpointGroupID)
        = (.ok grp, w3) →
      resolveEpGroup env w2 cfgEp cfgNw = (.ok grp, w3, [.pktTag grp.PktTag]) ∧
      CreateEndpoint P env w id = createEndpointReconcile P env w3 id cfgEp cfgNw grp ∧
      ∀ w0 name w5, ReconcileReachesBuild P env w3 id cfgEp w0 →
        getIntfName P env w0 = (.ok name, w5) →
        (CreateEndpointLog P env w id).2 =
          .pktTag grp.PktTag ::
            (CreatePortLog P env w5 name cfgEp grp.PktTag cfgNw.PktTag).2 ∧
        ∀ w6, CreatePort P env w5 name cfgEp grp.PktTag cfgNw.PktTag = (none, w6) →
          (CreateEndpointLog P env w id).2 =
            [.pktTag grp.PktTag,
             .createPort (if P.useVethPair then P.getExtPortName name else name)
                (if P.useVethPair then "" else "internal") cfgEp.ID grp.PktTag,
             .createPortTags cfgNw.PktTag cfgEp.IPAddress cfgEp.EndpointGroupID]) ∧
    (∀ e w3, EndpointGroupState.Read env w2 (toString cfgEp.EndpointGroupID)
        = (.error e, w3) → (∀ k, e ≠ .keyNotFound k) →
      CreateEndpoint P env w id =
        (some e, { w with trace := w.trace ++ [.readCfgEp id, .readCfgNw cfgEp.NetID,
          .readEpGroup (toString cfgEp.EndpointGroupID)] }) ∧
      (CreateEndpointLog P env w id).2 = [] ∧
      ∀ ev ∈ [Event.readCfgEp id, .readCfgNw cfgEp.NetID,
          .readEpGroup (toString cfgEp.EndpointGroupID)],
        ev.isOS = false ∧ ev.isStoreUpdate = false) := by
  refine ⟨createEndpointLog_run P env w id, ?_, ?_, ?_⟩
  · intro k w3 h3
    have hres : resolveEpGroup env w2 cfgEp cfgNw =
        (.ok { ID := "", PktTagType := cfgNw.PktTagType, PktTag := cfgNw.PktTag }, w3, []) := by
      unfold resolveEpGroup
      simp only [h3, ErrIfKeyExists, networkTag]
    have hlogs : ∀ w0 name w5, ReconcileReachesBuild P env w3 id cfgEp w0 →
        getIntfName P env w0 = (.ok name, w5) →
        (CreateEndpointLog P env w id).2 =
          (CreatePortLog P env w5 name cfgEp cfgNw.PktTag cfgNw.PktTag).2 := by
      intro w0 name w5 hrb hname
      unfold CreateEndpointLog
      simp only [h1, h2, hres, List.nil_append]
      rw [createEndpointReconcileLog_logs cfgNw _ hrb, createEndpointBuildLog_logs hname]
    refine ⟨hres, ?_, ?_⟩
    · unfold CreateEndpoint
      simp only [h1, h2, h3, ErrIfKeyExists, networkTag]
    · intro w0 name w5 hrb hname
      refine ⟨hlogs w0 name w5 hrb hname, ?_⟩
      intro w6 hport
      rw [hlogs w0 name w5 hrb hname, createPortLog_success hport]
  · intro grp w3 h3
    have hres : resolveEpGroup env w2 cfgEp cfgNw = (.ok grp, w3, [.pktTag grp.PktTag]) := by
      unfold resolveEpGroup
      simp only [h3]
    have hlogs : ∀ w0 name w5, ReconcileReachesBuild P env w3 id cfgEp w0 →
        getIntfName P env w0 = (.ok name, w5) →
        (CreateEndpointLog P env w id).2 =
          .pktTag grp.PktTag ::
            (CreatePortLog P env w5 name cfgEp grp.PktTag cfgNw.PktTag).2 := by
      intro w0 name w5 hrb hname
      unfold CreateEndpointLog
      simp only [h1, h2, hres, List.singleton_append]
      rw [createEndpointReconcileLog_logs cfgNw _ hrb, createEndpointBuildLog_logs hname]
    refine ⟨hres, ?_, ?_⟩
    · unfold CreateEndpoint
      simp only [h1, h2, h3]
    · intro w0 name w5 hrb hname
      refine ⟨hlogs w0 name w5 hrb hname, ?_⟩
      intro w6 hport
      rw [hlogs w0 name w5 hrb hname, createPortLog_success hport]
  · intro e w3 h3 hne
    have hw1 : w1 = { w with trace := w.trace ++ [.readCfgEp id] } := by
      have := cfgEpRead_world env w id
      rw [h1] at this
      exact this
    have hw2 : w2 = { w1 with trace := w1.trace ++ [.readCfgNw cfgEp.NetID] } := by
      have := cfgNwRead_world env w1 cfgEp.NetID
      rw [h2] at this
      exact this
    have hw3 : w3 = { w2 with trace :=
        w2.trace ++ [.readEpGroup (toString cfgEp.EndpointGroupID)] } := by
      have := epGroupRead_world env w2 (toString cfgEp.EndpointGroupID)
      rw [h3] at this
      exact this
    have hkey : ErrIfKeyExists (some e) = some e := by
      cases e with
      | keyNotFound k => exact absurd rfl (hne k)
      | core d => rfl
    refine ⟨?_, ?_, by simp [Event.isOS, Event.isStoreUpdate]⟩
    · have hfin : CreateEndpoint P env w id = (some e, w3) := by
        unfold CreateEndpoint
        simp only [h1, h2, h3, hkey]
      rw [hfin, hw3, hw2, hw1]
      simp
    · unfold CreateEndpointLog resolveEpGroup
      simp only [h1, h2, h3, hkey]

theorem CreateEndpoint_group_tag_witness :
    (CreateEndpointLog sampleParams sampleEnv sampleWorldFresh "ep1").2 =
      [.createPort "vport2-ovs" "" "ep1" 100, .createPortTags 100 "10.0.0.2" 0] ∧
    (CreateEndpointLog sampleParams sampleEnv sampleWorldGroup "ep1").2 =
      [.pktTag 5001, .createPort "vport2-ovs" "" "ep1" 5001,
        .createPortTags 100 "10.0.0.2" 0] ∧
    CreateEndpoint sampleParams envGroupReadFails sampleWorldGroup "ep1" =
      (some (.core "etcd cluster is unavailable"),
        { sampleWorldGroup with
          trace := [.readCfgEp "ep1", .readCfgNw "net1", .readEpGroup "0"] }) :=
  ⟨(((CreateEndpoint_group_tag sampleParams sampleEnv sampleWorldFresh "ep1"
      sampleCfgEp { sampleWorldFresh with trace := [.readCfgEp "ep1"] }
      sampleCfgNw { sampleWorldFresh with trace := [.readCfgEp "ep1", .readCfgNw "net1"] }
      (by decide) (by decide)).2.1 "0"
      { sampleWorldFresh with
        trace := [.readCfgEp "ep1", .readCfgNw "net1", .readEpGroup "0"] }
      (by decide)).2.2 sampleWorldFreshRead "vport2"
      (getIntfName sampleParams sampleEnv sampleWorldFreshRead).2
      (Or.inl ⟨"ep1", by decide⟩) (by decide)).2
      (CreatePort sampleParams sampleEnv
        (getIntfName sampleParams sampleEnv sampleWorldFreshRead).2 "vport2"
        sampleCfgEp 100 100).2
      (by decide),
   (((CreateEndpoint_group_tag sampleParams sampleEnv sampleWorldGroup "ep1"
      sampleCfgEp { sampleWorldGroup with trace := [.readCfgEp "ep1"] }
      sampleCfgNw { sampleWorldGroup with trace := [.readCfgEp "ep1", .readCfgNw "net1"] }
      (by decide) (by decide)).2.2.1 sampleGroup
      { sampleWorldGroup with
        trace := [.readCfgEp "ep1", .readCfgNw "net1", .readEpGroup "0"] }
      (by decide)).2.2
      { sampleWorldGroup with
        trace := [.readCfgEp "ep1", .readCfgNw "net1", .readEpGroup "0", .readOperEp "ep1"] }
      "vport2"
      (getIntfName sampleParams sampleEnv
        { sampleWorldGroup with
          trace := [.readCfgEp "ep1", .readCfgNw "net1", .readEpGroup "0",
            .readOperEp "ep1"] }).2
      (Or.inl ⟨"ep1", by decide⟩) (by decide)).2
      (CreatePort sampleParams sampleEnv
        (getIntfName sampleParams sampleEnv
          { sampleWorldGroup with
            trace := [.readCfgEp "ep1", .readCfgNw "net1", .readEpGroup "0",
              .readOperEp "ep1"] }).2
        "vport2" sampleCfgEp 5001 100).2
      (by decide),
   ((CreateEndpoint_group_tag sampleParams envGroupReadFails sampleWorldGroup "ep1"
      sampleCfgEp { sampleWorldGroup with trace := [.readCfgEp "ep1"] }
      sampleCfgNw { sampleWorldGroup with trace := [.readCfgEp "ep1", .readCfgNw "net1"] }
      (by decide) (by decide)).2.2.2 (.core "etcd cluster is unavailable")
      { sampleWorldGroup with
        trace := [.readCfgEp "ep1", .readCfgNw "net1", .readEpGroup "0"] }
      (by decide) (by intro k hk; cases hk)).1⟩

end Netplugin
